import Mathlib

/-!
# Verification of the DVT report generator core (che2025/DVT_v1)

A shallow embedding of the report generator's structured-document parser
(`report_generator_agent/doc_parsers.py`), Excel extraction engine
(`report_generator_agent/excel_parsers.py`), generation agents
(`report_generator_agent/ai_agents.py`) and template assembler
(`report_generator_agent/report_generator.py`), together with theorems that
settle the specification claims about them.

Modeling conventions:
* Python strings are Lean `String`s; every Python string primitive used by the
  code (`split`, `strip`, `upper`, `lower`, `in`, `replace`, `startswith`,
  `endswith`, `isdigit`, `len`) is re-implemented below by structural recursion
  over `String.data` so that every definition evaluates inside the kernel.
  The implementations are exact for the ASCII data this program manipulates.
* Python dicts are association lists with first-occurrence keys; insertion of
  an existing key overwrites the value in place (`dictInsert`), exactly like
  a Python dict.
* Machine/float arithmetic in the statistics code is modeled exactly over
  `Int` and over integer fractions (pairs `p/q`), since every quantity the
  program computes there is an exact rational.
* Calls to the external AI generation capability are modeled by an
  `Except String String` outcome (the spec itself treats generation as an
  opaque capability that returns text or fails).
-/

namespace DVT

/-! ## Python string primitives (structural models over `String.data`) -/

/-- `str.split(sep)` for a one-character separator: splits on every occurrence,
keeping empty pieces, and returns `[""]` on the empty string (Python semantics
for `"".split('\n')`). -/
def splitChars (sep : Char) : List Char → List (List Char)
  | [] => [[]]
  | c :: cs =>
    let rest := splitChars sep cs
    if c = sep then [] :: rest
    else
      match rest with
      | [] => [[c]]
      | r :: rs => (c :: r) :: rs

/-- Python `s.split(sep)` for a one-character separator. -/
def pySplit (sep : Char) (s : String) : List String :=
  (splitChars sep s.data).map fun l => ⟨l⟩

/-- Python `s.strip()`: remove leading and trailing whitespace. -/
def pyStrip (s : String) : String :=
  ⟨((s.data.dropWhile Char.isWhitespace).reverse.dropWhile Char.isWhitespace).reverse⟩

/-- Substring test on character lists: `pat` occurs contiguously in the list. -/
def isSubstrAux (pat : List Char) : List Char → Bool
  | [] => pat.isEmpty
  | c :: cs => pat.isPrefixOf (c :: cs) || isSubstrAux pat cs

/-- Python `pat in s` for a non-empty pattern string. -/
def pyContains (s pat : String) : Bool := isSubstrAux pat.data s.data

/-- Python `ch in s` for a single character. -/
def pyContainsChar (s : String) (ch : Char) : Bool := s.data.contains ch

/-- Python `s.upper()`. -/
def pyUpper (s : String) : String := ⟨s.data.map Char.toUpper⟩

/-- Python `s.lower()`. -/
def pyLower (s : String) : String := ⟨s.data.map Char.toLower⟩

/-- Python `s.startswith(pre)`. -/
def pyStartsWith (s pre : String) : Bool := pre.data.isPrefixOf s.data

/-- Python `s.endswith(suf)`. -/
def pyEndsWith (s suf : String) : Bool := suf.data.isSuffixOf s.data

/-- Python `len(s)` (number of characters). -/
def pyLen (s : String) : Nat := s.data.length

/-- Python `s.count(ch)` for a single character. -/
def pyCountChar (s : String) (ch : Char) : Nat := s.data.count ch

/-- Replacement of every occurrence of `pat` (non-empty) by `rep`,
fuel-indexed so that it evaluates by structural recursion. -/
def replaceFuel (pat rep : List Char) : Nat → List Char → List Char
  | 0, _ => []
  | _, [] => []
  | fuel + 1, c :: cs =>
    if pat.isPrefixOf (c :: cs) && !pat.isEmpty then
      rep ++ replaceFuel pat rep fuel (cs.drop (pat.length - 1))
    else
      c :: replaceFuel pat rep fuel cs

/-- Python `s.replace(pat, rep)` (all occurrences; `pat` non-empty at every
call site in the sources). -/
def pyReplace (s pat rep : String) : String :=
  ⟨replaceFuel pat.data rep.data (s.data.length + 1) s.data⟩

/-- Python `sep.join(parts)`. -/
def pyJoin (sep : String) : List String → String
  | [] => ""
  | [x] => x
  | x :: y :: rest => x ++ sep ++ pyJoin sep (y :: rest)

/-- Numeric value of a digit string. -/
def digitsToNat (ds : List Char) : Nat :=
  ds.foldl (fun n c => n * 10 + (c.toNat - 48)) 0

/-- Decimal digits of `n`, fuel-indexed for structural evaluation. -/
def natDigitsAux (fuel n : Nat) : List Char :=
  match fuel with
  | 0 => []
  | fuel + 1 =>
    if n < 10 then [Char.ofNat (48 + n)]
    else natDigitsAux fuel (n / 10) ++ [Char.ofNat (48 + n % 10)]

/-- Python `str(n)` for a non-negative int. -/
def natToStrM (n : Nat) : String := ⟨natDigitsAux (n + 1) n⟩

/-! ## Python dict primitives (insertion-ordered association lists) -/

/-- `d[k] = v` on a Python dict: overwrite in place if the key exists,
otherwise append at the end (insertion order preserved). -/
def dictInsert {α : Type} (k : String) (v : α) : List (String × α) → List (String × α)
  | [] => [(k, v)]
  | (k', v') :: rest => if k' = k then (k, v) :: rest else (k', v') :: dictInsert k v rest

/-- Lookup of the first (and, for `dictInsert`-built lists, only) binding. -/
def dictFind? {α : Type} (k : String) : List (String × α) → Option α
  | [] => none
  | (k', v) :: rest => if k' = k then some v else dictFind? k rest

/-- Python `d.get(k, default)`. -/
def dictGetD {α : Type} (k : String) (d : List (String × α)) (dflt : α) : α :=
  (dictFind? k d).getD dflt

/-- Python `k in d`. -/
def dictMem {α : Type} (k : String) (d : List (String × α)) : Bool :=
  (dictFind? k d).isSome

/-- Python `set.add`: append the element if it is not already present. -/
def insertIfAbsent {α : Type} [DecidableEq α] (x : α) (l : List α) : List α :=
  if x ∈ l then l else l ++ [x]

/-- First-occurrence deduplication, realized by the same fold a Python
`set`-accumulation loop performs. -/
def dedupFirst {α : Type} [DecidableEq α] (l : List α) : List α :=
  l.foldl (fun acc x => insertIfAbsent x acc) []

/-! ## `DeviceUnderTestAgent._count_test_articles_in_content`
(`ai_agents.py` lines 708-735) -/

/-- The header-keyword list used to skip header rows (`ai_agents.py:720`). -/
def headerKeywords : List String :=
  ["DUT PART NUMBER", "PART NUMBER", "SERIAL NUMBER", "LOT NUMBER"]

/-- One iteration of the line loop of `_count_test_articles_in_content`:
the accepted serial-number candidate of a line, if any.  A line contributes
iff it contains `'|'`, is non-blank, does not start with `"==="`, matches no
header keyword, has a second pipe-delimited column, and that column is a
non-empty all-digit string of length ≥ 8. -/
def lineAcceptedSerial (line : String) : Option String :=
  if pyContainsChar line '|' ∧ pyStrip line ≠ "" ∧ ¬ pyStartsWith line "===" then
    let upperLine := pyUpper line
    if headerKeywords.any (fun h => pyContains upperLine h) then none
    else
      let parts := (pySplit '|' line).map pyStrip
      if 2 ≤ parts.length then
        let potentialSerial := pyStrip (parts.getD 1 "")
        if potentialSerial ≠ "" ∧ potentialSerial.data.all Char.isDigit ∧ 8 ≤ pyLen potentialSerial
        then some potentialSerial else none
      else none
  else none

/-- `DeviceUnderTestAgent._count_test_articles_in_content`: accumulate the
accepted serial numbers of all lines into a set and return
`max(1, len(set))`. -/
def countTestArticlesInContent (excelData : String) : Nat :=
  let lines := pySplit '\n' excelData
  let uniqueSerialNumbers :=
    lines.foldl (fun acc line =>
      match lineAcceptedSerial line with
      | some sn => insertIfAbsent sn acc
      | none => acc) []
  max 1 uniqueSerialNumbers.length

/-- From the claim's wording: the distinct accepted serial-number strings
occurring in the input (deduplicated list of accepted second columns). -/
def distinctAcceptedSerials (excelData : String) : List String :=
  ((pySplit '\n' excelData).filterMap lineAcceptedSerial).dedup

/-! ## Excel extraction engine (`excel_parsers.py`) -/

/-- An openpyxl worksheet: `maxCol` is `worksheet.max_column`; each cell value
is `none` when the Python value is falsy (`None`, `""`, numeric `0`), and
`some v` when it is truthy with `str(value) = v`.  `worksheet.max_row` is the
number of rows. -/
structure Sheet where
  maxCol : Nat
  rows : List (List (Option String))
deriving DecidableEq, Repr

/-- `worksheet.max_row`. -/
def Sheet.maxRow (ws : Sheet) : Nat := ws.rows.length

/-- `worksheet.cell(row=r+1, column=c+1).value` (0-based here). -/
def Sheet.cell (ws : Sheet) (r c : Nat) : Option String :=
  (ws.rows.getD r []).getD c none

/-- `str(cell_value).strip() if cell_value else ""` (`excel_parsers.py:107,614`). -/
def cellStr (v : Option String) : String :=
  match v with
  | none => ""
  | some s => pyStrip s

/-- `str(cell_value).strip() if cell_value else f"Column{col}"`
(`excel_parsers.py:94,588`; `c` is 0-based, the Python column is `c+1`). -/
def colNameOf (v : Option String) (c : Nat) : String :=
  match v with
  | none => s!"Column{c+1}"
  | some s => pyStrip s

/-- The header row read in column order (`columns` in the sources). -/
def sheetColumns (ws : Sheet) : List String :=
  (List.range ws.maxCol).map fun c => colNameOf (ws.cell 0 c) c

/-- A parsed worksheet in dictionary form (`_parse_sheet_to_dict` result). -/
structure SheetData where
  columns : List String
  rowCount : Nat
  data : List (List (String × String))
  sheetName : String
deriving DecidableEq, Repr

/-- `BaseExcelParser._parse_sheet_to_dict` (`excel_parsers.py:71-130`):
header names from row 1, data rows from row 2 on, a row kept only if some
cell is non-empty. -/
def parseSheetToDict (ws : Sheet) (sheetName : String) : Option SheetData :=
  if ws.maxRow < 1 then none
  else
    let columns := sheetColumns ws
    let data := (List.range (ws.maxRow - 1)).filterMap fun i =>
      let r := i + 1
      let rowDict := (List.range ws.maxCol).foldl
        (fun d c => dictInsert (columns.getD c s!"Column{c+1}") (cellStr (ws.cell r c)) d) []
      let hasData := (List.range ws.maxCol).any fun c => cellStr (ws.cell r c) ≠ ""
      if hasData then some rowDict else none
    some { columns := columns, rowCount := data.length, data := data, sheetName := sheetName }

/-- `DeviationsParser.target_sheets`. -/
def deviationsTargetSheets : List String :=
  ["DEVIATIONS", "PROTOCOL DEVIATIONS", "DEVIATION LOG"]

/-- `DeviationsParser._normalize_sheet_name` (`excel_parsers.py:176-193`). -/
def normalizeDeviationsSheetName (sheetName : String) : String :=
  let sheetUpper := pyStrip (pyUpper sheetName)
  if sheetUpper ∈ deviationsTargetSheets then sheetUpper
  else if pyContains sheetUpper "DEVIATION" then
    if pyContains sheetUpper "PROTOCOL" then "PROTOCOL DEVIATIONS"
    else if pyContains sheetUpper "LOG" then "DEVIATION LOG"
    else "DEVIATIONS"
  else sheetName

/-- `DefectiveUnitsParser.target_sheets`. -/
def defectiveTargetSheets : List String :=
  ["DEFECTIVE UNITS", "DEFECTIVE UNIT INVESTIGATIONS", "FAILED UNITS"]

/-- `DefectiveUnitsParser._normalize_sheet_name` (`excel_parsers.py:302-319`). -/
def normalizeDefectiveSheetName (sheetName : String) : String :=
  let sheetUpper := pyStrip (pyUpper sheetName)
  if sheetUpper ∈ defectiveTargetSheets then sheetUpper
  else if pyContains sheetUpper "DEFECTIVE" ∧ pyContains sheetUpper "UNIT" then
    if pyContains sheetUpper "INVESTIGATION" then "DEFECTIVE UNIT INVESTIGATIONS"
    else "DEFECTIVE UNITS"
  else if pyContains sheetUpper "FAILED" ∧ pyContains sheetUpper "UNIT" then "FAILED UNITS"
  else sheetName

/-- `EquipmentUsedParser.target_sheets`. -/
def equipmentTargetSheets : List String :=
  ["EQUIPMENT LOG", "SOFTWARE LOG", "MATERIAL LOG"]

/-- `EquipmentUsedParser._normalize_sheet_name` (`excel_parsers.py:449-465`). -/
def normalizeEquipmentSheetName (sheetName : String) : String :=
  let sheetUpper := pyStrip (pyUpper sheetName)
  if sheetUpper ∈ equipmentTargetSheets then sheetUpper
  else if pyContains sheetUpper "EQUIPMENT" ∧ pyContains sheetUpper "LOG" then "EQUIPMENT LOG"
  else if pyContains sheetUpper "SOFTWARE" ∧ pyContains sheetUpper "LOG" then "SOFTWARE LOG"
  else if pyContains sheetUpper "MATERIAL" ∧ pyContains sheetUpper "LOG" then "MATERIAL LOG"
  else sheetName

/-- A loaded workbook: named worksheets in file order. -/
abbrev Workbook := List (String × Sheet)

/-- The shared `parse_excel_file` loop of the three dictionary parsers
(`excel_parsers.py:143-174,269-300,416-447`), parameterized by the
normalization function and target list of the parser. -/
def sheetFamilyParseExcelFile (normalize : String → String) (targets : List String)
    (wb : Workbook) : List (String × SheetData) :=
  wb.foldl (fun results (sheetName, ws) =>
    let normalized := normalize sheetName
    if normalized ∈ targets then
      match parseSheetToDict ws normalized with
      | some sheetData => dictInsert normalized sheetData results
      | none => results
    else results) []

/-- `DeviationsParser.parse_excel_file` on a loaded workbook. -/
def deviationsParseExcelFile : Workbook → List (String × SheetData) :=
  sheetFamilyParseExcelFile normalizeDeviationsSheetName deviationsTargetSheets

/-- `DefectiveUnitsParser.parse_excel_file` on a loaded workbook. -/
def defectiveParseExcelFile : Workbook → List (String × SheetData) :=
  sheetFamilyParseExcelFile normalizeDefectiveSheetName defectiveTargetSheets

/-- `EquipmentUsedParser.parse_excel_file` on a loaded workbook. -/
def equipmentParseExcelFile : Workbook → List (String × SheetData) :=
  sheetFamilyParseExcelFile normalizeEquipmentSheetName equipmentTargetSheets

/-! ### `TestArticleParser` (`excel_parsers.py:507-775`) -/

/-- `TestArticleParser.target_sheet_patterns`. -/
def testArticleTargetPatterns : List String :=
  ["TEST ARTICLE LOG & TEST RESULTS", "TEST ARTICLE LOG", "TEST RESULTS"]

/-- `TestArticleParser._is_target_sheet` (`excel_parsers.py:562-565`). -/
def isTargetTestArticleSheet (sheetName : String) : Bool :=
  testArticleTargetPatterns.any fun pattern => pyContains (pyUpper sheetName) (pyUpper pattern)

/-- The header-row scan of `_parse_test_article_sheet` (`excel_parsers.py:583-594`):
builds the column-name list while locating the primary-key column.  The
mutable `self.primary_key` (initially `"DUT Serial Number"`, replaced by each
matching column's actual name) is threaded through the fold. -/
def taColumnsStep (ws : Sheet) (acc : List String × Option Nat × String) (c : Nat) :
    List String × Option Nat × String :=
  let columnName := colNameOf (ws.cell 0 c) c
  let cols' := acc.1 ++ [columnName]
  if pyContains (pyLower columnName) (pyLower acc.2.2) ∨ pyContains (pyLower columnName) "dut serial"
  then (cols', some c, columnName)
  else (cols', acc.2.1, acc.2.2)

def taColumnsScan (ws : Sheet) : List String × Option Nat × String :=
  (List.range ws.maxCol).foldl (taColumnsStep ws) ([], none, "DUT Serial Number")

/-- State of the per-cell loop of one data row (`excel_parsers.py:608-628`):
the row dictionary, the primary-key value seen so far, the accumulated
test-result column list, and the has-data flag. -/
structure TaRowState where
  rowDict : List (String × String)
  pkVal : Option String
  trc : List String
  hasData : Bool
deriving DecidableEq, Repr

/-- One cell of the inner `for col` loop of a data row. -/
def taRowCellStep (ws : Sheet) (columns : List String) (pkCol r : Nat)
    (st : TaRowState) (c : Nat) : TaRowState :=
  let cellS := cellStr (ws.cell r c)
  let columnName := columns.getD c s!"Column{c+1}"
  { rowDict := dictInsert columnName cellS st.rowDict
    pkVal := if c = pkCol then some cellS else st.pkVal
    trc := if pyStartsWith (pyLower columnName) "test result" ∧ columnName ∉ st.trc
           then st.trc ++ [columnName] else st.trc
    hasData := st.hasData || decide (cellS ≠ "") }

/-- One data row of `_parse_test_article_sheet`: the inner `for col` loop. -/
def taProcessRow (ws : Sheet) (columns : List String) (pkCol : Nat) (trc : List String)
    (r : Nat) : TaRowState :=
  (List.range ws.maxCol).foldl (taRowCellStep ws columns pkCol r)
    { rowDict := [], pkVal := none, trc := trc, hasData := false }

/-- `_analyze_test_results` statistics (`excel_parsers.py:664-671`).
`actualSampleSize` is a plain Python `int`, hence `Int` here: the subtraction
at `excel_parsers.py:694` is not clamped at zero. -/
structure Analysis where
  testMethodLosses : Nat
  totalTestsPerformed : Nat
  passCount : Nat
  failCount : Nat
  tmlCount : Nat
  actualSampleSize : Int
deriving DecidableEq, Repr

/-- Result of `_analyze_test_results`: either the `{"message": ...}` dict
returned when no test-result column exists, or the statistics dict. -/
inductive AnalysisResult where
  | noColumns
  | stats (a : Analysis)
deriving DecidableEq, Repr

/-- Classification of one result cell (`excel_parsers.py:677-688`):
`record.get(col, "").upper().strip()`. -/
def resultCellValue (rec : List (String × String)) (col : String) : String :=
  pyStrip (pyUpper (dictGetD col rec ""))

/-- Whether one result cell counts as a test-method loss
(`result in ["TML", "TEST METHOD LOSS"]`). -/
def isTmlCell (rec : List (String × String)) (col : String) : Bool :=
  decide (resultCellValue rec col = "TML" ∨ resultCellValue rec col = "TEST METHOD LOSS")

/-- One result cell of `_analyze_test_results` (`excel_parsers.py:677-688`). -/
def analyzeCellStep (rec : List (String × String)) (a : Analysis) (col : String) : Analysis :=
  let result := resultCellValue rec col
  if result ≠ "" then
    let a := { a with totalTestsPerformed := a.totalTestsPerformed + 1 }
    if result = "PASS" then { a with passCount := a.passCount + 1 }
    else if result = "FAIL" then { a with failCount := a.failCount + 1 }
    else if result = "TML" ∨ result = "TEST METHOD LOSS" then
      { a with tmlCount := a.tmlCount + 1, testMethodLosses := a.testMethodLosses + 1 }
    else a
  else a

/-- `TestArticleParser._analyze_test_results` (`excel_parsers.py:657-696`).
The per-unit `actual_sample_size += 1` accumulation at line 691 is dead:
line 694 overwrites the field with `len(records) - test_method_losses`,
which is what the model computes. -/
def analyzeTestResults (records : List (String × List (String × String)))
    (testResultColumns : List String) : AnalysisResult :=
  if testResultColumns = [] then .noColumns
  else
    let counts := records.foldl
      (fun a (rec : String × List (String × String)) =>
        testResultColumns.foldl (analyzeCellStep rec.2) a)
      { testMethodLosses := 0, totalTestsPerformed := 0, passCount := 0, failCount := 0,
        tmlCount := 0, actualSampleSize := 0 }
    .stats { counts with actualSampleSize := (records.length : Int) - (counts.testMethodLosses : Int) }

/-- Parsed test-article data (`_parse_test_article_sheet` result dict,
`excel_parsers.py:637-645`). -/
structure TestArticleData where
  sheetName : String
  primaryKey : String
  columns : List String
  totalUnits : Nat
  testResultColumns : List String
  analysis : AnalysisResult
  records : List (String × List (String × String))
deriving DecidableEq, Repr

/-- `TestArticleParser._parse_test_article_sheet` (`excel_parsers.py:567-655`).
A data row is stored under its primary-key value iff it has some non-empty
cell and its primary-key value is non-empty (`excel_parsers.py:631`);
a later duplicate key overwrites the earlier record.
`taRecordsStep` is the body of the `for row` loop. -/
def taRecordsStep (ws : Sheet) (columns : List String) (pkCol : Nat)
    (acc : List (String × List (String × String)) × List String) (i : Nat) :
    List (String × List (String × String)) × List String :=
  let r := i + 1
  let st := taProcessRow ws columns pkCol acc.2 r
  if st.hasData ∧ st.pkVal.getD "" ≠ "" then
    (dictInsert (st.pkVal.getD "") st.rowDict acc.1, st.trc)
  else (acc.1, st.trc)

/-- The whole `_parse_test_article_sheet` (see `taRecordsStep` above). -/
def parseTestArticleSheet (ws : Sheet) (sheetName : String) : Option TestArticleData :=
  if ws.maxRow < 2 then none
  else
    let scan := taColumnsScan ws
    let columns := scan.1
    match scan.2.1 with
    | none => none
    | some pkCol =>
      let pkName := scan.2.2
      let folded := (List.range (ws.maxRow - 1)).foldl (taRecordsStep ws columns pkCol) ([], [])
      let records := folded.1
      let testResultColumns := folded.2
      some { sheetName := sheetName, primaryKey := pkName, columns := columns,
             totalUnits := records.length, testResultColumns := testResultColumns,
             analysis := analyzeTestResults records testResultColumns,
             records := records }

/-- `TestArticleParser.parse_excel_file` on a loaded workbook
(`excel_parsers.py:522-560`): the first sheet whose name matches a target
pattern is parsed; no match or unusable sheet gives an empty extraction. -/
def testArticleParseExcelFile (wb : Workbook) : List (String × TestArticleData) :=
  match wb.find? (fun p => isTargetTestArticleSheet p.1) with
  | none => []
  | some (sheetName, ws) =>
    match parseTestArticleSheet ws sheetName with
    | some sheetData => [("TEST_ARTICLE_DATA", sheetData)]
    | none => []

/-! ### `CombinedExcelParser.parse_all_excel_files` (`excel_parsers.py:778-862`) -/

instance instDecidableEqExcept {ε α : Type} [DecidableEq ε] [DecidableEq α] :
    DecidableEq (Except ε α)
  | .error a, .error b => if h : a = b then .isTrue (by rw [h]) else .isFalse (by simp [h])
  | .error _, .ok _ => .isFalse (by simp)
  | .ok _, .error _ => .isFalse (by simp)
  | .ok a, .ok b => if h : a = b then .isTrue (by rw [h]) else .isFalse (by simp [h])

/-- An uploaded spreadsheet file: loading it either yields a workbook or
raises (`.error` models a corrupt workbook, on which
`openpyxl.load_workbook` throws). -/
structure PyFile where
  filename : String
  workbook : Except String Workbook
deriving DecidableEq, Repr

/-- `BaseExcelParser.parse_uploaded_file` specialised to a parser body
(`excel_parsers.py:21-57`): any exception raised while reading or parsing is
caught and an empty dict returned, so the function itself never raises.
The individual `parse_excel_file` bodies equally catch the
`openpyxl.load_workbook` failure and return what was collected (nothing). -/
def parseUploadedFile {α : Type} (parseExcel : Workbook → List (String × α))
    (f : PyFile) : List (String × α) :=
  match f.workbook with
  | .error _ => []
  | .ok wb => parseExcel wb

/-- `all_results["parsing_summary"]`. -/
structure ParsingSummary where
  filesProcessed : Nat
  sheetsFound : List String
  errors : List String
deriving DecidableEq, Repr

/-- The combined result dict of `parse_all_excel_files`. -/
structure CombinedResults where
  testArticleData : List (String × TestArticleData)
  equipmentLogData : List (String × SheetData)
  deviationsData : List (String × SheetData)
  defectiveUnitsData : List (String × SheetData)
  summary : ParsingSummary
deriving DecidableEq, Repr

/-- Python `d.update(new)`. -/
def dictUpdate {α : Type} (d new : List (String × α)) : List (String × α) :=
  new.foldl (fun acc (p : String × α) => dictInsert p.1 p.2 acc) d

/-- Processing of one uploaded file inside `parse_all_excel_files`
(`excel_parsers.py:816-857`).  The `except` handler at lines 854-857 (which
would append to `parsing_summary["errors"]`) is unreachable: every parser's
`parse_uploaded_file` catches its own exceptions and returns `{}`
(`excel_parsers.py:55-57`), so the body below is total and `errors` is never
extended. -/
def parseAllStep (res : CombinedResults) (file? : Option PyFile) : CombinedResults :=
  match file? with
  | none => res
  | some f =>
    let testResults := parseUploadedFile testArticleParseExcelFile f
    let res :=
      if testResults ≠ [] then
        { res with testArticleData := dictUpdate res.testArticleData testResults,
                   summary := { res.summary with
                     sheetsFound := res.summary.sheetsFound ++ testResults.map Prod.fst } }
      else res
    let equipmentResults := parseUploadedFile equipmentParseExcelFile f
    let res :=
      if equipmentResults ≠ [] then
        { res with equipmentLogData := dictUpdate res.equipmentLogData equipmentResults,
                   summary := { res.summary with
                     sheetsFound := res.summary.sheetsFound ++ equipmentResults.map Prod.fst } }
      else res
    let deviationsResults := parseUploadedFile deviationsParseExcelFile f
    let res :=
      if deviationsResults ≠ [] then
        { res with deviationsData := dictUpdate res.deviationsData deviationsResults,
                   summary := { res.summary with
                     sheetsFound := res.summary.sheetsFound ++ deviationsResults.map Prod.fst } }
      else res
    let defectiveResults := parseUploadedFile defectiveParseExcelFile f
    let res :=
      if defectiveResults ≠ [] then
        { res with defectiveUnitsData := dictUpdate res.defectiveUnitsData defectiveResults,
                   summary := { res.summary with
                     sheetsFound := res.summary.sheetsFound ++ defectiveResults.map Prod.fst } }
      else res
    { res with summary := { res.summary with filesProcessed := res.summary.filesProcessed + 1 } }

/-- `CombinedExcelParser.parse_all_excel_files`: fold over the uploaded
files (`None` entries are skipped). -/
def parseAllExcelFiles (files : List (Option PyFile)) : CombinedResults :=
  files.foldl parseAllStep
    { testArticleData := [], equipmentLogData := [], deviationsData := [],
      defectiveUnitsData := [],
      summary := { filesProcessed := 0, sheetsFound := [], errors := [] } }

/-! ### Spec-side characterizations for the test-article worksheet claims -/

/-- From the claim: the number of result cells classified as test-method
losses (cell value, uppercased and stripped, equal to `"TML"` or
`"TEST METHOD LOSS"`). -/
def specTmlCellCount (records : List (String × List (String × String)))
    (testResultColumns : List String) : Nat :=
  (records.map fun rec => testResultColumns.countP (isTmlCell rec.2)).sum

/-- From the claim: the primary-key values of the kept data rows, in row
order — a row is kept iff some cell in it is non-empty and its key cell is
non-empty. -/
def specKeptPkValues (ws : Sheet) (pkCol : Nat) : List String :=
  (List.range (ws.maxRow - 1)).filterMap fun i =>
    let r := i + 1
    let pkVal := cellStr (ws.cell r pkCol)
    if ((List.range ws.maxCol).any fun c => cellStr (ws.cell r c) ≠ "") ∧ pkVal ≠ ""
    then some pkVal else none

/-- The dictionary built from one data row (header name ↦ stripped cell). -/
def taRowDict (ws : Sheet) (columns : List String) (r : Nat) : List (String × String) :=
  (List.range ws.maxCol).foldl
    (fun d c => dictInsert (columns.getD c s!"Column{c+1}") (cellStr (ws.cell r c)) d) []

/-- From the claim: key/record pairs of the kept data rows, in row order
(before last-write-wins deduplication). -/
def specKeptRows (ws : Sheet) (pkCol : Nat) : List (String × List (String × String)) :=
  (List.range (ws.maxRow - 1)).filterMap fun i =>
    let r := i + 1
    let pkVal := cellStr (ws.cell r pkCol)
    if ((List.range ws.maxCol).any fun c => cellStr (ws.cell r c) ≠ "") ∧ pkVal ≠ ""
    then some (pkVal, taRowDict ws (sheetColumns ws) r) else none

/-- From the claim: the payload of the last pair with a given key
(later duplicates overwrite earlier ones). -/
def lastMatch {α : Type} (k : String) (pairs : List (String × α)) : Option α :=
  pairs.foldl (fun o p => if p.1 = k then some p.2 else o) none

/-! ## Document structure parser (`doc_parsers.py`) -/

/-- One value of a section dict: a text content item (or the title string),
or a `{"type": "table", "data": ...}` content item. -/
inductive DictEntry where
  | str (s : String)
  | table (data : List (List (String × String)))
deriving DecidableEq, Repr

/-- A value of `self.parsed_data`: either the bare heading text of a
subsection, or a dict of `"title"`/`"content_N"` entries. -/
inductive SectionVal where
  | plain (s : String)
  | dict (d : List (String × DictEntry))
deriving DecidableEq, Repr

/-- The mutable state of `DocumentParser` (`doc_parsers.py:19-23`). -/
structure ParserState where
  parsedData : List (String × SectionVal)
  currentSection : Option String
  contentCounter : List (String × Nat)
  stopParsing : Bool
deriving DecidableEq, Repr

/-- An element of `doc.element.body`: a paragraph (its text) or a table
(rows of cell texts). -/
inductive DocElement where
  | para (text : String)
  | table (rows : List (List String))
deriving DecidableEq, Repr

/-- The appendices vocabulary (`doc_parsers.py:173-178`). -/
def appendicesPatterns : List String := ["appendices", "appendix", "附录", "attachments"]

/-- `DocumentParser._should_stop_parsing` (`doc_parsers.py:168-191`). -/
def shouldStopParsing (text : String) : Bool :=
  let textLower := pyStrip (pyLower text)
  (appendicesPatterns.any fun pattern =>
      textLower = pattern || pyStartsWith textLower (pattern ++ " ")
        || pyStartsWith textLower (pattern ++ ":"))
  || ((appendicesPatterns.any fun pattern => pyContains textLower pattern)
        && decide (pyLen (pyStrip text) < 50))

/-- The closed section-title vocabulary (`doc_parsers.py:146-152`). -/
def sectionTitles : List String :=
  ["Purpose", "Scope", "Background", "Test Method Summary", "References",
   "Definitions", "Responsibility", "Materials", "Equipment",
   "General Instructions", "Procedure", "Acceptance Criteria",
   "Device Under Test Configuration", "Test Consumables",
   "Test Method", "Test Setup", "Test Execution", "Data Analysis"]

/-- The title → index table of `_get_section_index` (`doc_parsers.py:195-214`),
in source (and hence Python dict iteration) order. -/
def sectionIndexMapping : List (String × Nat) :=
  [("Purpose", 1), ("Scope", 2), ("Background", 3), ("Test Method Summary", 4),
   ("References", 5), ("Definitions", 6), ("Responsibility", 7), ("Materials", 8),
   ("Device Under Test Configuration", 9), ("Test Consumables", 10), ("Equipment", 11),
   ("General Instructions", 12), ("Procedure", 13), ("Test Method", 14),
   ("Test Setup", 15), ("Test Execution", 16), ("Data Analysis", 17),
   ("Acceptance Criteria", 18)]

/-- `DocumentParser._get_section_index` (`doc_parsers.py:193-223`).  The
fallback `abs(hash(title)) % 100 + 20` uses Python's salted string hash, so
the parser is parameterized by a hash model `hashFn`. -/
def getSectionIndex (hashFn : String → Nat) (sectionTitle : String) : Nat :=
  let titleLower := pyLower sectionTitle
  match sectionIndexMapping.find? (fun p => pyContains titleLower (pyLower p.1)) with
  | some p => p.2
  | none => hashFn sectionTitle % 100 + 20

/-- The numbered-heading patterns of `_extract_section_number`
(`doc_parsers.py:132-143`): `^(\d+\.\d+)\s+(.*)$`, `^(\d+\.\d+)\.?\s*(.*)$`
and `^(\d+\.\d+)\s*:\s*(.*)$`, tried in order and each followed by
`.strip()` of the captured title.  After the digit-dot-digit prefix, the
three patterns collapse to one deterministic computation: an optional
single dot is consumed, and the stripped remainder is the title (the first
pattern demands leading whitespace, which the strip removes anyway, and the
third pattern is subsumed by the second).  `.*` cannot cross a newline, so a
remainder whose body contains `'\n'` matches no pattern. -/
def matchNumberedSection (text : String) : Option (String × String) :=
  let cs := text.data
  let ds1 := cs.takeWhile Char.isDigit
  if ds1 = [] then none
  else
    match cs.drop ds1.length with
    | '.' :: rest2 =>
      let ds2 := rest2.takeWhile Char.isDigit
      if ds2 = [] then none
      else
        let rest3 := rest2.drop ds2.length
        let rest4 := match rest3 with
          | '.' :: r => r
          | r => r
        if (rest4.dropWhile Char.isWhitespace).contains '\n' then none
        else some (⟨ds1 ++ '.' :: ds2⟩, pyStrip ⟨rest4⟩)
    | _ => none

/-- `DocumentParser._extract_section_number` (`doc_parsers.py:129-162`). -/
def extractSectionNumber (hashFn : String → Nat) (text : String) : Option (String × String) :=
  match matchNumberedSection text with
  | some r => some r
  | none =>
    let textClean := pyStrip text
    if pyLen textClean < 100 ∧
        sectionTitles.any (fun title => pyContains (pyLower textClean) (pyLower title)) then
      some (s!"{getSectionIndex hashFn textClean}.0", textClean)
    else none

/-- `DocumentParser._is_main_section`. -/
def isMainSection (sectionNum : String) : Bool := pyEndsWith sectionNum ".0"

/-- In-place update of the dict stored under a section key.  A `plain` value
here would raise in Python (`parsed_data[sn][key] = ...` on a `str`); that
state is unreachable because `_add_content_to_section` converts it first. -/
def updateSectionDict (sn contentKey : String) (entry : DictEntry)
    (parsed : List (String × SectionVal)) : List (String × SectionVal) :=
  match dictFind? sn parsed with
  | some (.dict d) => dictInsert sn (.dict (dictInsert contentKey entry d)) parsed
  | _ => parsed

/-- `DocumentParser._add_content_to_section` (`doc_parsers.py:225-255`). -/
def addContentToSection (sn : String) (entry : DictEntry) (st : ParserState) : ParserState :=
  let pre :=
    match dictFind? sn st.parsedData with
    | none =>
      -- `if section_num not in self.parsed_data: self.parsed_data[section_num] = {}`
      { st with parsedData := dictInsert sn (.dict []) st.parsedData }
    | some (.dict _) =>
      -- a dict with "title" passes through; a dict without "title" equally
      -- falls through (it is already a dict, so the `elif` chain does nothing)
      st
    | some (.plain originalText) =>
      -- subsection text becomes its first content item
      { st with
        parsedData := dictInsert sn (.dict [("content_1", .str originalText)]) st.parsedData,
        contentCounter := dictInsert sn 1 st.contentCounter }
  -- `self.content_counter[section_num] += 1` (a missing key would raise
  -- KeyError in Python; on reachable states the key is always present, and
  -- the model defaults to 0)
  let cnt := dictGetD sn pre.contentCounter 0 + 1
  { pre with
    parsedData := updateSectionDict sn s!"content_{cnt}" entry pre.parsedData,
    contentCounter := dictInsert sn cnt pre.contentCounter }

/-- `DocumentParser._process_paragraph` (`doc_parsers.py:71-101`). -/
def processParagraph (hashFn : String → Nat) (st : ParserState) (t : String) : ParserState :=
  let text := pyStrip t
  if text = "" then st
  else if shouldStopParsing text then { st with stopParsing := true }
  else
    match extractSectionNumber hashFn text with
    | some (sectionNum, title) =>
      if isMainSection sectionNum then
        { st with currentSection := some sectionNum,
                  parsedData := dictInsert sectionNum (.dict [("title", .str title)]) st.parsedData,
                  contentCounter := dictInsert sectionNum 0 st.contentCounter }
      else
        { st with currentSection := some sectionNum,
                  parsedData := dictInsert sectionNum (.plain text) st.parsedData,
                  contentCounter := dictInsert sectionNum 0 st.contentCounter }
    | none =>
      match st.currentSection with
      | some cur => addContentToSection cur (.str text) st
      | none => st

/-- `DocumentParser._process_table` (`doc_parsers.py:103-127`). -/
def processTable (st : ParserState) (rows : List (List String)) : ParserState :=
  match st.currentSection with
  | none => st
  | some cur =>
    let tableData :=
      match rows with
      | [] => []
      | firstRow :: rest =>
        let headers := firstRow.map pyStrip
        rest.map fun row =>
          row.enum.foldl
            (fun d (p : Nat × String) =>
              dictInsert (headers.getD p.1 s!"Column_{p.1+1}") (pyStrip p.2) d) []
    addContentToSection cur (.table tableData) st

/-- One iteration of the element loop of `parse_document`
(`doc_parsers.py:48-59`): once `stop_parsing` is set the loop breaks, so a
set flag freezes the state. -/
def parseStep (hashFn : String → Nat) (st : ParserState) (e : DocElement) : ParserState :=
  if st.stopParsing then st
  else
    match e with
    | .para t => processParagraph hashFn st t
    | .table rows => processTable st rows

/-- `DocumentParser.parse_document` on a document body. -/
def parseDocument (hashFn : String → Nat) (body : List DocElement) : ParserState :=
  body.foldl (parseStep hashFn)
    { parsedData := [], currentSection := none, contentCounter := [], stopParsing := false }

/-! ### `DocumentParser.format_for_ai_prompt` ordering (`doc_parsers.py:257-314`) -/

/-- Python `int(s)` restricted to unsigned decimal strings with optional
surrounding whitespace; `none` models the `ValueError` raise. -/
def pyIntNat? (s : String) : Option Nat :=
  let t := pyStrip s
  if t.data ≠ [] ∧ t.data.all Char.isDigit then
    some (t.data.foldl (fun n c => n * 10 + (c.toNat - 48)) 0)
  else none

/-- `DocumentParser._sort_section_key` (`doc_parsers.py:311-314`):
`(int(parts[0]), int(parts[1]))` of `section_num.split('.')`; `none` models
the exception raised on a malformed key. -/
def sortSectionKey (s : String) : Option (Nat × Nat) :=
  match pySplit '.' s with
  | p0 :: p1 :: _ =>
    match pyIntNat? p0, pyIntNat? p1 with
    | some a, some b => some (a, b)
    | _, _ => none
  | _ => none

/-- The key with the defaulting used to keep the sort total in the model
(the theorems only invoke it on well-formed keys, where the default is
irrelevant). -/
def sectionKeyD (s : String) : Nat × Nat := (sortSectionKey s).getD (0, 0)

/-- Strict numeric (major, minor) comparison. -/
def keyLt (a b : String) : Bool :=
  let x := sectionKeyD a
  let y := sectionKeyD b
  decide (x.1 < y.1 ∨ (x.1 = y.1 ∧ x.2 < y.2))

/-- Stable insertion used to model Python's stable `sorted(..., key=...)`:
an element is placed after every earlier element whose key is not greater. -/
def insertByKey (x : String) : List String → List String
  | [] => [x]
  | y :: ys => if keyLt x y then x :: y :: ys else y :: insertByKey x ys

/-- The section order produced by `sorted(self.parsed_data.keys(),
key=self._sort_section_key)`: a stable sort by numeric (major, minor) key.
A stable sorted permutation is unique, so insertion sort is an exact model
of Python's Timsort here. -/
def sortedSectionKeys (parsedData : List (String × SectionVal)) : List String :=
  (parsedData.map Prod.fst).foldl (fun acc k => insertByKey k acc) []

/-- `DocumentParser.format_for_ai_prompt`, with the per-section rendering
(`## ...` headers, content items, table previews) abstracted as `render`:
the claim under verification concerns only the order in which sections are
serialized. -/
def formatForAiPrompt (render : String → Option SectionVal → String)
    (parsedData : List (String × SectionVal)) : String :=
  pyJoin "\n" ((sortedSectionKeys parsedData).map fun k => render k (dictFind? k parsedData))

/-! ## Generation agents (`ai_agents.py`) -/

/-- The `TaskResult` dataclass (`ai_agents.py:16-23`); metadata values are
stringified for the model (the claims never inspect them). -/
structure TaskResult where
  success : Bool
  content : String
  metadata : List (String × String)
  error : Option String := none
deriving DecidableEq, Repr

/-- Outcome of one call to the external generation capability
(`BaseDVTAgent.generate_content`): generated text, or a raised exception. -/
abbrev GenOutcome := Except String String

/-- The post-processing helpers of `ProtocolDeviationsAgent` that the claims
do not depend on, kept abstract: `fixAndClean` models
`_fix_deviation_numbering` followed by `_clean_formatting`
(`ai_agents.py:2025-2085`, regex renumbering and markdown cleanup), and
`countDeviations` models `_count_deviations` (`ai_agents.py:2100-2108`). -/
structure DeviationsPost where
  fixAndClean : String → String
  countDeviations : String → Nat

/-- `ProtocolDeviationsAgent._validate_and_format` (`ai_agents.py:1997-2023`);
`_has_required_elements` only prints a warning and does not affect the
result. -/
def validateAndFormat (post : DeviationsPost) (rawContent : String) : String :=
  let content := pyStrip rawContent
  if content = "" ∨ pyContains (pyLower content) "no deviations" then "No deviations."
  else post.fixAndClean content

/-- `ProtocolDeviationsAgent.process_deviations` (`ai_agents.py:1937-1995`)
as a function of the generation outcome.  Note the two failure paths: a
raised exception and empty generated content both return `success := false`
with the `"No deviations."` fallback content. -/
def processDeviations (post : DeviationsPost) (deviationsText : String)
    (gen : GenOutcome) : TaskResult :=
  if deviationsText = "" ∨ pyStrip deviationsText = "No deviations data found." then
    { success := true, content := "No deviations.",
      metadata := [("deviation_count", "0"), ("processing_method", "fallback")] }
  else
    match gen with
    | .error e =>
      { success := false, content := "No deviations.",
        metadata := [("error", e)],
        error := some ("Deviation processing failed: " ++ e) }
    | .ok rawContent =>
      if rawContent = "" then
        { success := false, content := "No deviations.",
          metadata := [("error", "AI generation returned empty content")],
          error := some "Failed to generate deviation content" }
      else
        let processedContent := validateAndFormat post rawContent
        { success := true, content := processedContent,
          metadata := [("deviation_count", natToStrM (post.countDeviations processedContent)),
                       ("processing_method", "ai_generated"), ("validation_passed", "True")] }

/-- The relevant user inputs of Task 4.5 (`device_config` dict). -/
structure DeviceConfig where
  unitsSterilized : Bool
  unitsModified : Bool
  modificationDescription : Option String
deriving DecidableEq, Repr

/-- `DeviceUnderTestAgent._create_fallback_section` (`ai_agents.py:784-803`). -/
def createFallbackSection (cfg : DeviceConfig) : String :=
  let sterilizedText := if cfg.unitsSterilized then "sterilized" else "not sterilized"
  let modificationText :=
    if cfg.unitsModified then
      "Modifications were made: " ++ cfg.modificationDescription.getD "Details not specified"
    else "No modifications were made outside normal manufacturing processes."
  "DEVICE UNDER TEST CONFIGURATION\n\nThe test units were " ++ sterilizedText ++ ". "
    ++ modificationText
    ++ "\n\n[Test article details will be populated from uploaded Excel data]\n\n| Part Number | Serial Number | Lot Number |\n|-------------|---------------|------------|\n| TBD | TBD | TBD |"

/-- `DeviceUnderTestAgent.create_device_configuration_section`
(`ai_agents.py:511-585`) as a function of the formatted Excel extraction
text and the generation outcome.  Every exception raised inside the task's
`try` block (the generation call being the subject of the claims) flows to
the single `except` at lines 578-585; the attachment side effect (file I/O,
lines 558-563) only contributes a metadata entry and is omitted. -/
def createDeviceConfigurationSection (excelData : String) (cfg : DeviceConfig)
    (gen : GenOutcome) : TaskResult :=
  let testArticleCount := countTestArticlesInContent excelData
  match gen with
  | .ok content =>
    { success := true, content := content,
      metadata := [("test_article_count", natToStrM testArticleCount),
                   ("presentation_type",
                     if testArticleCount ≤ 10 then "detailed_table" else "summary"),
                   ("sterilized", if cfg.unitsSterilized then "True" else "False"),
                   ("modified", if cfg.unitsModified then "True" else "False"),
                   ("ai_generated", "True")] }
  | .error e =>
    { success := false, content := createFallbackSection cfg,
      metadata := [("error", e)], error := some e }

/-! ### `TestResultSummaryAgent` attribute-table statistics
(`ai_agents.py:1822-1923`) -/

/-- The statistics dict produced by `_get_excel_statistics`
(`ai_agents.py:1690-1695`): plain Python ints. -/
structure ExcelStats where
  initialSampleSize : Int
  testMethodLosses : Int
  actualSampleSize : Int
  defectiveUnits : Int
deriving DecidableEq, Repr

/-- Exact value of Python `float(s)` for plain decimal literals, as an
integer fraction `(numerator, denominator)` with positive denominator;
`none` models the `ValueError` raise on a malformed string (scientific
notation, infinities and digit-group underscores are outside the model,
which is exact for the `"NN%/NN%"` data this code receives). -/
def pyFloat? (s : String) : Option (Int × Nat) :=
  let t := pyStrip s
  let withSign : Int × List Char :=
    match t.data with
    | '+' :: r => (1, r)
    | '-' :: r => (-1, r)
    | r => (1, r)
  let sign := withSign.1
  let cs := withSign.2
  let intPart := cs.takeWhile Char.isDigit
  match cs.drop intPart.length with
  | [] =>
    if intPart = [] then none
    else some (sign * (digitsToNat intPart : Int), 1)
  | '.' :: fracRest =>
    let fracPart := fracRest.takeWhile Char.isDigit
    if fracRest.drop fracPart.length ≠ [] then none
    else if intPart = [] ∧ fracPart = [] then none
    else some (sign * ((digitsToNat intPart * 10 ^ fracPart.length + digitsToNat fracPart : Nat) : Int),
               10 ^ fracPart.length)
  | _ => none

/-- Round `p / q` (with `q > 0`) to the nearest integer, ties to even —
the rounding Python's fixed-point formatting performs. -/
def roundHalfEvenFrac (p q : Int) : Int :=
  let d := Int.fdiv p q
  let r := p - d * q
  if 2 * r < q then d else if 2 * r > q then d + 1 else if d % 2 = 0 then d else d + 1

/-- Python `f"{p/q:.2%}"`: the value scaled to hundredths of a percent,
rounded half-to-even, and rendered with two decimals and a `%` sign.
(The source formats a C double; the model formats the exact rational, which
agrees everywhere the double rounds correctly — in particular on every
value of the form `(s-f)/s` and `n/100` the program produces.) -/
def formatPercent2 (p q : Int) : String :=
  let n := roundHalfEvenFrac (p * 10000) q
  let m := n.natAbs
  (if n < 0 then "-" else "") ++ natToStrM (m / 100) ++ "."
    ++ (if m % 100 < 10 then "0" ++ natToStrM (m % 100) else natToStrM (m % 100)) ++ "%"

/-- The confidence/reliability parse of `_generate_attribute_table`
(`ai_agents.py:1838-1841`): split on `"/"`, strip `%`, `float(...)`.
`none` models every exception path (missing `"/"` → `IndexError`, malformed
number → `ValueError`), all caught at `ai_agents.py:1854-1856`. -/
def parseConfRel (confidenceRel : String) : Option ((Int × Nat) × (Int × Nat)) :=
  match pySplit '/' confidenceRel with
  | p0 :: p1 :: _ =>
    match pyFloat? (pyReplace p0 "%" ""), pyFloat? (pyReplace p1 "%" "") with
    | some c, some r => some (c, r)
    | _, _ => none
  | _ => none

/-- The `"Actual Confidence/ Reliability"` cell of one attribute-table row
(`ai_agents.py:1836-1856`): for a parsable confidence/reliability string,
positive sample size and non-negative failure count, the cell is
`1 - defective/actual` (exactly `(actual-defective)/actual`) and the target
reliability (the parsed value divided by 100), both `.2%`-formatted;
otherwise `"TBD"`.  The parsed confidence level itself is computed but never
used by the source. -/
def attrConfidenceCell (confidenceRel : String) (defectiveUnits actualSampleSize : Int) : String :=
  match parseConfRel confidenceRel with
  | none => "TBD"
  | some (_confidence, rel) =>
    if actualSampleSize > 0 ∧ defectiveUnits ≥ 0 then
      formatPercent2 (actualSampleSize - defectiveUnits) actualSampleSize
        ++ " / " ++ formatPercent2 rel.1 ((rel.2 : Int) * 100)
    else "TBD"

/-- One extracted acceptance criterion (`_parse_criteria_response` result;
fields may be absent on the text-format fallback path, hence `Option`). -/
structure CriteriaInfo where
  reqId : Option String
  acceptanceCriteria : Option String
  confidenceReliability : Option String
deriving DecidableEq, Repr

/-- Python `str(i)` for an int. -/
def intToStr (i : Int) : String :=
  (if i < 0 then "-" else "") ++ natToStrM i.natAbs

/-- One row of the attribute table (`ai_agents.py:1858-1868`). -/
def attributeRow (stats : ExcelStats) (criteria : CriteriaInfo) : List String :=
  [criteria.reqId.getD "",
   criteria.acceptanceCriteria.getD "",
   criteria.confidenceReliability.getD "",
   intToStr stats.initialSampleSize,
   intToStr stats.testMethodLosses,
   intToStr stats.actualSampleSize,
   intToStr stats.defectiveUnits,
   attrConfidenceCell (criteria.confidenceReliability.getD "90%/90%")
     stats.defectiveUnits stats.actualSampleSize]

/-- The attribute-table headers (`ai_agents.py:1871-1875`). -/
def attributeHeaders : List String :=
  ["REQ ID", "Acceptance Criteria", "Confidence / Reliability",
   "Initial Sample Size", "Test Method Losses", "Actual Sample Size",
   "Defective Units", "Actual Confidence/ Reliability"]

/-- `_format_word_table` (`ai_agents.py:1905-1923`): markdown rendering. -/
def formatWordTable (headers : List String) (rows : List (List String)) : String :=
  let headerRow := "| " ++ pyJoin " | " headers ++ " |\n"
  let separatorRow := "|" ++ pyJoin "|" (headers.map fun _ => " --- ") ++ "|\n"
  "\n" ++ headerRow ++ separatorRow
    ++ pyJoin "" (rows.map fun row => "| " ++ pyJoin " | " row ++ " |\n") ++ "\n"

/-- `TestResultSummaryAgent._generate_attribute_table` (`ai_agents.py:1829-1877`). -/
def generateAttributeTable (criteriaInfo : List CriteriaInfo) (stats : ExcelStats) : String :=
  formatWordTable attributeHeaders (criteriaInfo.map (attributeRow stats))

/-! ## Template assembler (`report_generator.py`) -/

/-- The native Word table produced by `convert_markdown_table_to_word`:
cells are rendered as text; a row always has `nCols` cells (cells beyond
the source row stay empty, surplus source cells are dropped — exactly the
`j < len(cells)` guards in the source). -/
structure WordTable where
  headerCells : List String
  dataRows : List (List String)
deriving DecidableEq, Repr

/-- Number of table rows (one header row plus the data rows). -/
def WordTable.nRows (t : WordTable) : Nat := 1 + t.dataRows.length

/-- Number of columns (`cols=len(header_row)`). -/
def WordTable.nCols (t : WordTable) : Nat := t.headerCells.length

/-- `[cell.strip() for cell in line.split('|')[1:-1]]`
(`report_generator.py:1608,1614`). -/
def innerCells (line : String) : List String :=
  (((pySplit '|' line).drop 1).dropLast).map pyStrip

/-- `DVTReportGenerator.convert_markdown_table_to_word`
(`report_generator.py:1595-1651`), with the document side effects reduced to
the produced table.  Note the data-row loop skips every line containing
`"---"` (line 1613), not just the positional separator row. -/
def convertMarkdownTableToWord (tableText : String) : Option WordTable :=
  let lines := pySplit '\n' (pyStrip tableText)
  if lines.length < 2 then none
  else
    let tableLines := lines.filterMap fun line =>
      let s := pyStrip line
      if pyStartsWith s "|" ∧ pyEndsWith s "|" then some s else none
    if tableLines.length < 2 then none
    else
      let headerRow := innerCells (tableLines.getD 0 "")
      let dataRows := (tableLines.drop 2).filterMap fun line =>
        if pyContains line "---" then none else some (innerCells line)
      if headerRow = [] then none
      else
        some { headerCells := (List.range headerRow.length).map fun j => headerRow.getD j "",
               dataRows := dataRows.map fun rowData =>
                 (List.range headerRow.length).map fun j => rowData.getD j "" }

/-- `DVTReportGenerator.contains_markdown_table` (`report_generator.py:1653-1658`). -/
def containsMarkdownTable (text : String) : Bool :=
  let lines := pySplit '\n' text
  let tableLines := lines.filter fun line => pyContainsChar line '|'
  let separatorLines := lines.filter fun line => pyContains line "---" || pyContains line "|-"
  decide (2 ≤ tableLines.length) && decide (1 ≤ separatorLines.length)

/-- `DVTReportGenerator.extract_non_table_text` (`report_generator.py:1660-1673`). -/
def extractNonTableText (text : String) : String :=
  pyJoin "\n" ((pySplit '\n' text).filter fun line =>
    ¬ (pyContainsChar line '|' ∧ (pyContains line "---" ∨ 2 ≤ pyCountChar line '|'))
      ∧ pyStrip line ≠ "")

/-! ### Placeholder substitution and the missing-placeholder fallback
(`report_generator.py:1441-1581, 1787-1909`) -/

/-- `self.placeholder_mapping` (`report_generator.py:33-50`), in source order. -/
def placeholderMapping : List (String × String) :=
  [("[BK_PURPOSE_TEXT]", "task_4_1_purpose"),
   ("[BK_SCOPE_TEXT]", "task_4_1_scope"),
   ("[BK_REFERENCES]", "task_4_2"),
   ("[BK_ACRONYMS]", "task_4_3"),
   ("[BK_DEFINITIONS]", "task_4_3"),
   ("[BK_PROCEDURE_SUMMARY]", "task_4_4"),
   ("[BK_DUT_CONFIG]", "task_4_5"),
   ("[BK_TEST_EXECUTION_CHRONOLOGY]", "test_execution_chronology"),
   ("[BK_CONSUMABLES_USED]", "task_4_6"),
   ("[BK_TEST_RESULT_SUMMARY]", "task_4_7"),
   ("[BK_TEST_RESULT_ANALYSIS]", "test_result_analysis_images"),
   ("[BK_TEST_METHOD_LOSS_INVESTIGATIONS]", "test_method_losses"),
   ("[BK_PROTOCOL_DEVIATIONS]", "protocol_deviations"),
   ("[BK_DEFECTIVE_UNIT]", "defective_unit_investigations"),
   ("[BK_CONCLUSION]", "conclusion"),
   ("[BK_ATTACHMENTS]", "attachments")]

/-- `placeholder.replace('[', '').replace(']', '')` (`report_generator.py:1822,1875`). -/
def cleanPlaceholderName (placeholder : String) : String :=
  pyReplace (pyReplace placeholder "[" "") "]" ""

/-- The regex searches and the markdown cleanup used by
`extract_content_sections`, kept abstract: the claims settled against this
module do not depend on their internals.  `cleanMarkdown` models
`clean_markdown_content` (`report_generator.py:1390-1439`); each `search`
field models one `re.search(...)` call returning the (unstripped) first
capture group, or `none` when the pattern does not match. -/
structure ExtractHelpers where
  cleanMarkdown : String → String
  purposeSearch1 : String → Option String
  purposeSearch2 : String → Option String
  scopeSearch1 : String → Option String
  scopeSearch2 : String → Option String
  acronymsSearch1 : String → Option String
  acronymsSearch2 : String → Option String
  definitionsSearch1 : String → Option String
  definitionsSearch2 : String → Option String
  consumablesSearch : String → Option String

/-- A helper instantiation where no regex ever matches and cleanup is the
identity, usable for concrete evaluations whose code paths never invoke the
helpers. -/
def trivialHelpers : ExtractHelpers :=
  { cleanMarkdown := id,
    purposeSearch1 := fun _ => none, purposeSearch2 := fun _ => none,
    scopeSearch1 := fun _ => none, scopeSearch2 := fun _ => none,
    acronymsSearch1 := fun _ => none, acronymsSearch2 := fun _ => none,
    definitionsSearch1 := fun _ => none, definitionsSearch2 := fun _ => none,
    consumablesSearch := fun _ => none }

/-- The purpose line-scan fallback (`report_generator.py:1462-1470`). -/
def purposeScan : List String → List String
  | [] => []
  | l :: ls =>
    if pyStrip l ≠ "" ∧ ¬ pyContains (pyUpper l) "SCOPE" ∧ ¬ pyContains l "PURPOSE_CONTENT:"
    then l :: purposeScan ls
    else if pyContains (pyUpper l) "SCOPE" then []
    else purposeScan ls

/-- The scope line-scan fallback (`report_generator.py:1484-1494`). -/
def scopeScan (found : Bool) : List String → List String
  | [] => []
  | l :: ls =>
    if pyContains (pyUpper l) "SCOPE" then scopeScan true ls
    else if found ∧ pyStrip l ≠ "" then l :: scopeScan found ls
    else scopeScan found ls

/-- The definitions line-scan fallback (`report_generator.py:1524-1534`). -/
def definitionsScan (found : Bool) : List String → List String
  | [] => []
  | l :: ls =>
    if pyContains (pyUpper l) "DEFINITIONS" then definitionsScan true ls
    else if found ∧ pyStrip l ≠ "" then l :: definitionsScan found ls
    else definitionsScan found ls

/-- The `[BK_PURPOSE_TEXT]` branch (`report_generator.py:1450-1470`). -/
def extractPurposeText (h : ExtractHelpers) (sectionContent : String) : Option String :=
  match h.purposeSearch1 sectionContent with
  | some g => some (h.cleanMarkdown (pyStrip g))
  | none =>
    match h.purposeSearch2 sectionContent with
    | some g => some (h.cleanMarkdown (pyStrip g))
    | none =>
      let purposeLines := purposeScan (pySplit '\n' sectionContent)
      if purposeLines ≠ [] then some (h.cleanMarkdown (pyJoin "\n" purposeLines)) else none

/-- The `[BK_SCOPE_TEXT]` branch (`report_generator.py:1472-1494`). -/
def extractScopeText (h : ExtractHelpers) (sectionContent : String) : Option String :=
  match h.scopeSearch1 sectionContent with
  | some g => some (h.cleanMarkdown (pyStrip g))
  | none =>
    match h.scopeSearch2 sectionContent with
    | some g => some (h.cleanMarkdown (pyStrip g))
    | none =>
      let scopeLines := scopeScan false (pySplit '\n' sectionContent)
      if scopeLines ≠ [] then some (h.cleanMarkdown (pyJoin "\n" scopeLines)) else none

/-- The `[BK_ACRONYMS]` branch (`report_generator.py:1496-1508`); its final
fallback always assigns. -/
def extractAcronyms (h : ExtractHelpers) (sectionContent : String) : String :=
  match h.acronymsSearch1 sectionContent with
  | some g => h.cleanMarkdown (pyStrip g)
  | none =>
    match h.acronymsSearch2 sectionContent with
    | some g => h.cleanMarkdown (pyStrip g)
    | none => h.cleanMarkdown sectionContent

/-- The `[BK_DEFINITIONS]` branch (`report_generator.py:1510-1537`). -/
def extractDefinitions (h : ExtractHelpers) (sectionContent : String) : Option String :=
  match h.definitionsSearch1 sectionContent with
  | some g => some (h.cleanMarkdown (pyStrip g))
  | none =>
    match h.definitionsSearch2 sectionContent with
    | some g =>
      let definitionsContent := pyStrip g
      if definitionsContent ≠ "" then some (h.cleanMarkdown definitionsContent)
      else
        let definitionsLines := definitionsScan false (pySplit '\n' sectionContent)
        if definitionsLines ≠ [] then some (h.cleanMarkdown (pyJoin "\n" definitionsLines))
        else none
    | none => some (h.cleanMarkdown sectionContent)

/-- The `[BK_CONSUMABLES_USED]` branch (`report_generator.py:1552-1561`). -/
def extractConsumables (h : ExtractHelpers) (sectionContent : String) : String :=
  if pyContains (pyLower sectionContent) "consumable" then
    match h.consumablesSearch sectionContent with
    | some g => h.cleanMarkdown (pyStrip g)
    | none => h.cleanMarkdown sectionContent
  else h.cleanMarkdown sectionContent

/-- The `[BK_TEST_RESULT_ANALYSIS]` branch (`report_generator.py:1571-1579`). -/
def extractTestResultAnalysis (h : ExtractHelpers) (sectionContent : String) : String :=
  if sectionContent = "TBD" then "TBD"
  else if pyStartsWith sectionContent "\x7bANALYSIS_IMAGES:" then sectionContent
  else h.cleanMarkdown sectionContent

/-- Insert a key only when the branch assigned a value. -/
def maybeInsert (key : String) (v : Option String) (cm : List (String × String)) :
    List (String × String) :=
  match v with
  | some s => dictInsert key s cm
  | none => cm

/-- One iteration of the `extract_content_sections` loop
(`report_generator.py:1441-1581`): for a placeholder whose section key is
present in `sections`, the `if/elif` chain assigns at most one
`content_mapping` entry under the bracket-less placeholder name. -/
def extractStep (h : ExtractHelpers) (sections : List (String × String))
    (cm : List (String × String)) (entry : String × String) : List (String × String) :=
  let placeholder := entry.1
  match dictFind? entry.2 sections with
  | none => cm
  | some sectionContent =>
    if placeholder = "[BK_PURPOSE_TEXT]" then
          maybeInsert "BK_PURPOSE_TEXT" (extractPurposeText h sectionContent) cm
        else if placeholder = "[BK_SCOPE_TEXT]" then
          maybeInsert "BK_SCOPE_TEXT" (extractScopeText h sectionContent) cm
        else if placeholder = "[BK_ACRONYMS]" then
          dictInsert "BK_ACRONYMS" (extractAcronyms h sectionContent) cm
        else if placeholder = "[BK_DEFINITIONS]" then
          maybeInsert "BK_DEFINITIONS" (extractDefinitions h sectionContent) cm
        else if placeholder = "[BK_REFERENCES]" then
          dictInsert "BK_REFERENCES" (h.cleanMarkdown sectionContent) cm
        else if placeholder = "[BK_PROCEDURE_SUMMARY]" then
          dictInsert "BK_PROCEDURE_SUMMARY" (h.cleanMarkdown sectionContent) cm
        else if placeholder = "[BK_DUT_CONFIG]" then
          dictInsert "BK_DUT_CONFIG" (h.cleanMarkdown sectionContent) cm
        else if placeholder = "[BK_TEST_EXECUTION_CHRONOLOGY]" then
          dictInsert "BK_TEST_EXECUTION_CHRONOLOGY" sectionContent cm
        else if placeholder = "[BK_CONSUMABLES_USED]" then
          dictInsert "BK_CONSUMABLES_USED" (extractConsumables h sectionContent) cm
        else if placeholder = "[BK_TEST_METHOD_LOSS_INVESTIGATIONS]" then
          dictInsert "BK_TEST_METHOD_LOSS_INVESTIGATIONS" (h.cleanMarkdown sectionContent) cm
        else if placeholder = "[BK_PROTOCOL_DEVIATIONS]" then
          dictInsert "BK_PROTOCOL_DEVIATIONS" (h.cleanMarkdown sectionContent) cm
        else if placeholder = "[BK_DEFECTIVE_UNIT]" then
          dictInsert "BK_DEFECTIVE_UNIT" (h.cleanMarkdown sectionContent) cm
        else if placeholder = "[BK_TEST_RESULT_SUMMARY]" then
          dictInsert "BK_TEST_RESULT_SUMMARY" (h.cleanMarkdown sectionContent) cm
        else if placeholder = "[BK_TEST_RESULT_ANALYSIS]" then
          dictInsert "BK_TEST_RESULT_ANALYSIS" (extractTestResultAnalysis h sectionContent) cm
        else cm

/-- `DVTReportGenerator.extract_content_sections` (`report_generator.py:1441-1581`).
The chain in `extractStep` has no branch for `[BK_CONCLUSION]` or
`[BK_ATTACHMENTS]`: those placeholders never obtain a `content_mapping`
entry. -/
def extractContentSections (h : ExtractHelpers) (sections : List (String × String)) :
    List (String × String) :=
  placeholderMapping.foldl (extractStep h sections) []

/-- One placeholder check inside the body-paragraph loop
(`report_generator.py:1814-1867`), threading the paragraph text (which
replacements mutate) and the `placeholders_found` list.  `imageEffect`
models the paragraph state after `insert_analysis_images`
(`report_generator.py:774-833`, image file I/O). -/
def paraStep (imageEffect : String → String → String)
    (sections cm : List (String × String)) (acc : String × List String)
    (entry : String × String) : String × List String :=
  let text := acc.1
  let found := acc.2
  let placeholder := entry.1
  if pyContains text placeholder then
    let found := found ++ [placeholder]
    let rc0 := dictGetD entry.2 sections ""
    let rc := if rc0 = "" then dictGetD (cleanPlaceholderName placeholder) cm "" else rc0
    if rc ≠ "" then
      if pyStartsWith rc "\x7bANALYSIS_IMAGES:" then
        (imageEffect (pyReplace text placeholder "") rc, found)
      else if containsMarkdownTable rc then
        let cleared := pyReplace text placeholder ""
        let nonTableText := extractNonTableText rc
        ((if pyStrip nonTableText ≠ "" then nonTableText else cleared), found)
      else (pyReplace text placeholder rc, found)
    else (text, found)
  else (text, found)

/-- The whole body-paragraph pass of `create_word_document_from_template`
(`report_generator.py:1813-1867`): final paragraph texts and the
`placeholders_found` list. -/
def docBodyRun (imageEffect : String → String → String)
    (sections cm : List (String × String)) (paras : List String) :
    List String × List String :=
  paras.foldl
    (fun (acc : List String × List String) para =>
      let stepped := placeholderMapping.foldl (paraStep imageEffect sections cm) (para, acc.2)
      (acc.1 ++ [stepped.1], stepped.2))
    ([], [])

/-- The note paragraph announcing relocated content
(`report_generator.py:1882`). -/
def missingNoteFor (placeholder : String) : String :=
  "Missing section content for " ++ placeholder ++ ":"

/-- The missing-placeholder loop (`report_generator.py:1870-1889`): for each
placeholder not found in the body, append a blank paragraph, the note and
the content — but only when `content_mapping` holds a non-empty value under
the bracket-less placeholder name. -/
def missingAppendStep (cm : List (String × String)) (found : List String)
    (blocks : List String) (entry : String × String) : List String :=
  if entry.1 ∉ found then
    let rc := dictGetD (cleanPlaceholderName entry.1) cm ""
    if rc ≠ "" then blocks ++ ["", missingNoteFor entry.1, rc]
    else blocks
  else blocks

/-- The foldl over all placeholders of `missingAppendStep`, starting from
no appended paragraphs. -/
def missingAppendBlocks (cm : List (String × String)) (found : List String) : List String :=
  placeholderMapping.foldl (missingAppendStep cm found) []

/-- `DVTReportGenerator.create_word_document_from_template`
(`report_generator.py:1787-1909`) reduced to its text-level effect:
the rewritten body paragraphs, the found-placeholder list, and the
paragraphs appended at the end of the document.  `introContent` stands for
the timestamped `create_intro_content` string stored under the `'intro'`
key (a key no placeholder name ever equals). -/
def createWordDocumentFromTemplate (h : ExtractHelpers)
    (imageEffect : String → String → String) (introContent : String)
    (sections : List (String × String)) (templateParas : List String) :
    List String × List String × List String :=
  let cm := dictInsert "intro" introContent (extractContentSections h sections)
  let run := docBodyRun imageEffect sections cm templateParas
  (run.1, run.2, missingAppendBlocks cm run.2)

/-! # Theorems -/

/-! ## Generic lemmas about the set/dict folds -/

theorem insertIfAbsent_nodup {α : Type} [DecidableEq α] {x : α} {l : List α}
    (h : l.Nodup) : (insertIfAbsent x l).Nodup := by
  unfold insertIfAbsent
  split
  · exact h
  · rename_i hx
    exact ((List.perm_append_singleton x l).nodup_iff).mpr (List.nodup_cons.mpr ⟨hx, h⟩)

theorem insertIfAbsent_toFinset {α : Type} [DecidableEq α] (x : α) (l : List α) :
    (insertIfAbsent x l).toFinset = insert x l.toFinset := by
  unfold insertIfAbsent
  split
  · rename_i hx
    rw [Finset.insert_eq_self.mpr (List.mem_toFinset.mpr hx)]
  · ext a
    simp [or_comm]

theorem foldl_insertIfAbsent_nodup {α : Type} [DecidableEq α] :
    ∀ (l acc : List α), acc.Nodup →
      (l.foldl (fun a x => insertIfAbsent x a) acc).Nodup := by
  intro l
  induction l with
  | nil => intro acc h; exact h
  | cons hd tl ih =>
    intro acc h
    exact ih _ (insertIfAbsent_nodup h)

theorem foldl_insertIfAbsent_toFinset {α : Type} [DecidableEq α] :
    ∀ (l acc : List α),
      (l.foldl (fun a x => insertIfAbsent x a) acc).toFinset = acc.toFinset ∪ l.toFinset := by
  intro l
  induction l with
  | nil => intro acc; simp
  | cons hd tl ih =>
    intro acc
    rw [List.foldl_cons, ih, insertIfAbsent_toFinset]
    ext a
    simp [or_comm, or_left_comm]

theorem foldl_insertIfAbsent_length {α : Type} [DecidableEq α] (l : List α) :
    (l.foldl (fun a x => insertIfAbsent x a) []).length = l.dedup.length := by
  have hnd := foldl_insertIfAbsent_nodup l [] List.nodup_nil
  have hfin := foldl_insertIfAbsent_toFinset l []
  have h1 : (l.foldl (fun a x => insertIfAbsent x a) []).toFinset.card
      = (l.foldl (fun a x => insertIfAbsent x a) []).length :=
    List.toFinset_card_of_nodup hnd
  rw [← h1, hfin]
  simp [List.card_toFinset]

/-! ## C3: the unique-DUT counter -/

theorem countTestArticles_foldl_filterMap (lines : List String) :
    ∀ acc : List String,
      lines.foldl (fun acc line =>
        match lineAcceptedSerial line with
        | some sn => insertIfAbsent sn acc
        | none => acc) acc
      = (lines.filterMap lineAcceptedSerial).foldl (fun a x => insertIfAbsent x a) acc := by
  induction lines with
  | nil => intro acc; rfl
  | cons hd tl ih =>
    intro acc
    rw [List.foldl_cons, List.filterMap_cons]
    cases h : lineAcceptedSerial hd with
    | none => simpa [h] using ih acc
    | some sn => simpa [h] using ih (insertIfAbsent sn acc)

/-- C3 (amended): for every input text, the unique-DUT counter returns
`max 1 d` where `d` is the number of distinct accepted serial-number strings
in the input; in particular the count is always ≥ 1, and it equals `d`
exactly when at least one accepted serial number exists.  (The claim's
unconditional equality fails when the input has no accepted serial number —
see the counterexample.) -/
theorem c3_count_equals_floored_distinct (excelData : String) :
    countTestArticlesInContent excelData
      = max 1 (distinctAcceptedSerials excelData).length := by
  simp only [countTestArticlesInContent, distinctAcceptedSerials]
  rw [countTestArticles_foldl_filterMap, foldl_insertIfAbsent_length]

/-- C3 (counterexample): on an input with no accepted serial number the
counter returns 1, not the number (0) of distinct accepted serial numbers,
so the claimed unconditional equality is false. -/
theorem c3_counterexample :
    countTestArticlesInContent "" = 1 ∧ (distinctAcceptedSerials "").length = 0 := by
  constructor <;> rfl

/-! ## C4: parsing stops permanently at the first appendices heading -/

theorem parseStep_stopped (hashFn : String → Nat) {st : ParserState}
    (h : st.stopParsing = true) (e : DocElement) : parseStep hashFn st e = st := by
  unfold parseStep
  rw [if_pos h]

theorem foldl_parseStep_stopped (hashFn : String → Nat) {st : ParserState}
    (h : st.stopParsing = true) :
    ∀ body : List DocElement, body.foldl (parseStep hashFn) st = st := by
  intro body
  induction body with
  | nil => rfl
  | cons e rest ih => rw [List.foldl_cons, parseStep_stopped hashFn h, ih]

theorem processParagraph_trigger (hashFn : String → Nat) (st : ParserState) {t : String}
    (h1 : pyStrip t ≠ "") (h2 : shouldStopParsing (pyStrip t) = true) :
    processParagraph hashFn st t = { st with stopParsing := true } := by
  unfold processParagraph
  rw [if_neg h1, if_pos h2]

/-- C4: once a paragraph whose (stripped, non-empty) text is recognized by
`shouldStopParsing` is reached, the final parse tree equals the tree built
from the elements before it alone — the triggering heading is not added,
and no later paragraph or table contributes anything. -/
theorem c4_parsing_stops_at_appendices (hashFn : String → Nat)
    (pre post : List DocElement) (t : String)
    (h1 : pyStrip t ≠ "") (h2 : shouldStopParsing (pyStrip t) = true) :
    (parseDocument hashFn (pre ++ DocElement.para t :: post)).parsedData
      = (parseDocument hashFn pre).parsedData := by
  unfold parseDocument
  rw [List.foldl_append, List.foldl_cons]
  set st := List.foldl (parseStep hashFn) _ pre with hst
  by_cases hstop : st.stopParsing = true
  · rw [parseStep_stopped hashFn hstop, foldl_parseStep_stopped hashFn hstop]
  · have hstep : parseStep hashFn st (DocElement.para t) = { st with stopParsing := true } := by
      unfold parseStep
      rw [if_neg hstop]
      exact processParagraph_trigger hashFn st h1 h2
    rw [hstep, foldl_parseStep_stopped hashFn rfl]

/-- C4 witness: a concrete protocol whose appendices heading cuts off a
trailing section and table. -/
theorem c4_witness :
    pyStrip "APPENDICES" ≠ "" ∧ shouldStopParsing (pyStrip "APPENDICES") = true ∧
    (parseDocument (fun _ => 0)
        ([DocElement.para "1.0 PURPOSE", DocElement.para "Protocol purpose text."]
          ++ DocElement.para "APPENDICES"
            :: [DocElement.para "9.1 Appendix content", DocElement.table [["H"], ["v"]]])).parsedData
      = (parseDocument (fun _ => 0)
          [DocElement.para "1.0 PURPOSE", DocElement.para "Protocol purpose text."]).parsedData :=
  ⟨by decide, by decide,
   c4_parsing_stops_at_appendices (fun _ => 0)
     [DocElement.para "1.0 PURPOSE", DocElement.para "Protocol purpose text."]
     [DocElement.para "9.1 Appendix content", DocElement.table [["H"], ["v"]]]
     "APPENDICES" (by decide) (by decide)⟩

/-! ## C9: prompt serialization orders sections numerically -/

theorem pairwise_imp_mem {α : Type} {R S : α → α → Prop} :
    ∀ {l : List α}, (∀ a b, a ∈ l → b ∈ l → R a b → S a b) → l.Pairwise R → l.Pairwise S := by
  intro l
  induction l with
  | nil => intro _ _; exact List.Pairwise.nil
  | cons x xs ih =>
    intro himp hp
    rcases List.pairwise_cons.mp hp with ⟨hx, hxs⟩
    refine List.pairwise_cons.mpr ⟨fun b hb => ?_, ?_⟩
    · exact himp x b (List.mem_cons_self x xs) (List.mem_cons_of_mem x hb) (hx b hb)
    · exact ih (fun a b ha hb => himp a b (List.mem_cons_of_mem x ha) (List.mem_cons_of_mem x hb)) hxs

theorem insertByKey_perm (x : String) : ∀ l : List String, (insertByKey x l).Perm (x :: l) := by
  intro l
  induction l with
  | nil => exact List.Perm.refl _
  | cons y ys ih =>
    unfold insertByKey
    split
    · exact List.Perm.refl _
    · exact (List.Perm.cons y ih).trans (List.Perm.swap x y ys)

theorem sortedKeys_foldl_perm :
    ∀ (keys acc : List String),
      (keys.foldl (fun a k => insertByKey k a) acc).Perm (keys ++ acc) := by
  intro keys
  induction keys with
  | nil => intro acc; simp
  | cons k ks ih =>
    intro acc
    rw [List.foldl_cons]
    exact ((ih (insertByKey k acc)).trans
      ((List.Perm.append_left ks (insertByKey_perm k acc)).trans List.perm_middle)).trans
      (List.Perm.refl _)

theorem keyLt_asymm {a b : String} (h : keyLt a b = true) : keyLt b a = false := by
  simp only [keyLt, decide_eq_true_eq] at h
  simp only [keyLt, decide_eq_false_iff_not]
  omega

theorem keyLt_trans {a b c : String} (h1 : keyLt a b = true) (h2 : keyLt b c = true) :
    keyLt a c = true := by
  simp only [keyLt, decide_eq_true_eq] at h1 h2 ⊢
  omega

theorem insertByKey_pairwise {x : String} :
    ∀ {l : List String}, l.Pairwise (fun a b => keyLt b a = false) →
      (insertByKey x l).Pairwise (fun a b => keyLt b a = false) := by
  intro l
  induction l with
  | nil => intro _; simp [insertByKey]
  | cons y ys ih =>
    intro hp
    rcases List.pairwise_cons.mp hp with ⟨hy, hys⟩
    unfold insertByKey
    split
    · rename_i hlt
      refine List.pairwise_cons.mpr ⟨fun b hb => ?_, hp⟩
      rcases List.mem_cons.mp hb with hb | hb
      · subst hb; exact keyLt_asymm hlt
      · -- `keyLt b x` would give `keyLt b y` by transitivity, contradicting `hy`
        cases hbx : keyLt b x with
        | false => rfl
        | true =>
          have hby : keyLt b y = true := keyLt_trans hbx hlt
          rw [hy b hb] at hby
          exact absurd hby Bool.false_ne_true
    · rename_i hlt
      refine List.pairwise_cons.mpr ⟨fun b hb => ?_, ih hys⟩
      have hb' : b ∈ x :: ys := (insertByKey_perm x ys).mem_iff.mp hb
      rcases List.mem_cons.mp hb' with hb' | hb'
      · subst hb'
        exact Bool.not_eq_true _ ▸ (by simpa using hlt)
      · exact hy b hb'

/-- C9: the serialization order produced by `format_for_ai_prompt` is a
permutation of the parsed section identifiers that is non-decreasing in the
numeric (major, minor) key — never in lexical string order, as the concrete
`["10.0", "2.0"] ↦ ["2.0", "10.0"]` instance shows (lexically `"10.0"`
precedes `"2.0"`). -/
theorem c9_sections_sorted_numerically (parsedData : List (String × SectionVal))
    (h : ∀ k ∈ parsedData.map Prod.fst, (sortSectionKey k).isSome) :
    (sortedSectionKeys parsedData).Perm (parsedData.map Prod.fst) ∧
    List.Pairwise (fun a b => ∃ ka kb, sortSectionKey a = some ka ∧ sortSectionKey b = some kb ∧
        (ka.1 < kb.1 ∨ (ka.1 = kb.1 ∧ ka.2 ≤ kb.2))) (sortedSectionKeys parsedData) ∧
    sortedSectionKeys [("10.0", SectionVal.plain "x"), ("2.0", SectionVal.plain "y")]
      = ["2.0", "10.0"] := by
  have hperm : (sortedSectionKeys parsedData).Perm (parsedData.map Prod.fst) := by
    unfold sortedSectionKeys
    simpa using sortedKeys_foldl_perm (parsedData.map Prod.fst) []
  refine ⟨hperm, ?_, by decide⟩
  have hsorted : (sortedSectionKeys parsedData).Pairwise (fun a b => keyLt b a = false) := by
    unfold sortedSectionKeys
    generalize parsedData.map Prod.fst = keys
    have : ∀ (ks acc : List String), acc.Pairwise (fun a b => keyLt b a = false) →
        (ks.foldl (fun a k => insertByKey k a) acc).Pairwise (fun a b => keyLt b a = false) := by
      intro ks
      induction ks with
      | nil => intro acc hacc; exact hacc
      | cons k ks' ih => intro acc hacc; exact ih _ (insertByKey_pairwise hacc)
    exact this keys [] List.Pairwise.nil
  refine pairwise_imp_mem (fun a b ha hb hr => ?_) hsorted
  rcases Option.isSome_iff_exists.mp (h a (hperm.mem_iff.mp ha)) with ⟨ka, hka⟩
  rcases Option.isSome_iff_exists.mp (h b (hperm.mem_iff.mp hb)) with ⟨kb, hkb⟩
  refine ⟨ka, kb, hka, hkb, ?_⟩
  have hda : sectionKeyD a = ka := by simp [sectionKeyD, hka]
  have hdb : sectionKeyD b = kb := by simp [sectionKeyD, hkb]
  simp only [keyLt, decide_eq_false_iff_not, hda, hdb] at hr
  omega

/-- C9 witness: a concrete out-of-order parse tree, serialized ascending. -/
theorem c9_witness :
    (∀ k ∈ ([("2.1", SectionVal.plain "a"), ("10.0", SectionVal.plain "b"),
             ("2.0", SectionVal.plain "c")].map Prod.fst), (sortSectionKey k).isSome) ∧
    (sortedSectionKeys [("2.1", SectionVal.plain "a"), ("10.0", SectionVal.plain "b"),
        ("2.0", SectionVal.plain "c")]).Perm
      ([("2.1", SectionVal.plain "a"), ("10.0", SectionVal.plain "b"),
        ("2.0", SectionVal.plain "c")].map Prod.fst) ∧
    List.Pairwise (fun a b => ∃ ka kb, sortSectionKey a = some ka ∧ sortSectionKey b = some kb ∧
        (ka.1 < kb.1 ∨ (ka.1 = kb.1 ∧ ka.2 ≤ kb.2)))
      (sortedSectionKeys [("2.1", SectionVal.plain "a"), ("10.0", SectionVal.plain "b"),
        ("2.0", SectionVal.plain "c")]) := by
  have h := c9_sections_sorted_numerically
    [("2.1", SectionVal.plain "a"), ("10.0", SectionVal.plain "b"), ("2.0", SectionVal.plain "c")]
    (by decide)
  exact ⟨by decide, h.1, h.2.1⟩

/-! ## C2: actual sample size equation -/

theorem analyzeCellStep_tml (rec : List (String × String)) (a : Analysis) (col : String) :
    (analyzeCellStep rec a col).testMethodLosses
      = a.testMethodLosses + (if isTmlCell rec col then 1 else 0) := by
  unfold analyzeCellStep isTmlCell
  by_cases h1 : resultCellValue rec col = ""
  · simp [h1]
  · by_cases h2 : resultCellValue rec col = "PASS"
    · simp [h1, h2, (by decide : ¬(("PASS" : String) = "TML" ∨ ("PASS" : String) = "TEST METHOD LOSS"))]
    · by_cases h3 : resultCellValue rec col = "FAIL"
      · simp [h1, h2, h3,
          (by decide : ¬(("FAIL" : String) = "TML" ∨ ("FAIL" : String) = "TEST METHOD LOSS"))]
      · by_cases h4 : resultCellValue rec col = "TML" ∨ resultCellValue rec col = "TEST METHOD LOSS"
        · simp [h1, h2, h3, h4]
        · simp [h1, h2, h3, h4]

theorem foldl_cellStep_tml (rec : List (String × String)) :
    ∀ (cols : List String) (a : Analysis),
      (cols.foldl (analyzeCellStep rec) a).testMethodLosses
        = a.testMethodLosses + cols.countP (isTmlCell rec) := by
  intro cols
  induction cols with
  | nil => intro a; simp
  | cons c cs ih =>
    intro a
    rw [List.foldl_cons, ih, analyzeCellStep_tml, List.countP_cons]
    by_cases h : isTmlCell rec c
    · simp [h]
      omega
    · simp [h]

theorem foldl_recordStep_tml (cols : List String) :
    ∀ (records : List (String × List (String × String))) (a : Analysis),
      (records.foldl (fun a rec => cols.foldl (analyzeCellStep rec.2) a) a).testMethodLosses
        = a.testMethodLosses + (records.map fun rec => cols.countP (isTmlCell rec.2)).sum := by
  intro records
  induction records with
  | nil => intro a; simp
  | cons r rs ih =>
    intro a
    rw [List.foldl_cons, ih, foldl_cellStep_tml]
    simp [Nat.add_assoc]

/-- C2: whenever result columns exist, the derived statistics satisfy
`actual_sample_size = total_records - test_method_losses`, where
`test_method_losses` is exactly the number of result cells classified as
test-method losses; and since the subtraction is over `Int` and not clamped,
`actual_sample_size` can be negative, as a one-record sheet with two TML
cells shows. -/
theorem c2_actual_sample_size_equation (records : List (String × List (String × String)))
    (trc : List String) (h : trc ≠ []) :
    ∃ a, analyzeTestResults records trc = AnalysisResult.stats a ∧
      a.testMethodLosses = specTmlCellCount records trc ∧
      a.actualSampleSize = (records.length : Int) - (specTmlCellCount records trc : Int) ∧
      ∃ r2 c2 a2, analyzeTestResults r2 c2 = AnalysisResult.stats a2 ∧ a2.actualSampleSize < 0 := by
  unfold analyzeTestResults
  rw [if_neg h]
  have html : (records.foldl (fun a rec => trc.foldl (analyzeCellStep rec.2) a)
      { testMethodLosses := 0, totalTestsPerformed := 0, passCount := 0, failCount := 0,
        tmlCount := 0, actualSampleSize := 0 }).testMethodLosses
      = specTmlCellCount records trc := by
    rw [foldl_recordStep_tml]
    simp [specTmlCellCount]
  refine ⟨_, rfl, by simpa using html, by simp [html], ?_⟩
  exact ⟨[("a", [("T", "TML"), ("U", "TML")])], ["T", "U"],
    { testMethodLosses := 2, totalTestsPerformed := 2, passCount := 0, failCount := 0,
      tmlCount := 2, actualSampleSize := -1 }, by decide, by decide⟩

/-- C2 witness: the equation evaluated on a concrete two-record sheet. -/
theorem c2_witness :
    (["Test Result 1"] : List String) ≠ [] ∧
    ∃ a, analyzeTestResults [("123", [("Test Result 1", "PASS")]),
        ("456", [("Test Result 1", "TML")])] ["Test Result 1"] = AnalysisResult.stats a ∧
      a.testMethodLosses = specTmlCellCount [("123", [("Test Result 1", "PASS")]),
        ("456", [("Test Result 1", "TML")])] ["Test Result 1"] ∧
      a.actualSampleSize = ((2 : Nat) : Int) - (specTmlCellCount [("123", [("Test Result 1", "PASS")]),
        ("456", [("Test Result 1", "TML")])] ["Test Result 1"] : Int) ∧
      ∃ r2 c2 a2, analyzeTestResults r2 c2 = AnalysisResult.stats a2 ∧ a2.actualSampleSize < 0 :=
  ⟨by decide,
   c2_actual_sample_size_equation
     [("123", [("Test Result 1", "PASS")]), ("456", [("Test Result 1", "TML")])]
     ["Test Result 1"] (by decide)⟩

/-! ## C10: keyed-record construction of the test-article sheet -/

theorem taColumnsStep_fst (ws : Sheet) (acc : List String × Option Nat × String) (c : Nat) :
    (taColumnsStep ws acc c).1 = acc.1 ++ [colNameOf (ws.cell 0 c) c] := by
  unfold taColumnsStep
  dsimp only
  split <;> rfl

theorem taColumnsScan_fst_aux (ws : Sheet) :
    ∀ (l : List Nat) (acc : List String × Option Nat × String),
      (l.foldl (taColumnsStep ws) acc).1
        = acc.1 ++ l.map (fun c => colNameOf (ws.cell 0 c) c) := by
  intro l
  induction l with
  | nil => intro acc; simp
  | cons c cs ih =>
    intro acc
    rw [List.foldl_cons, ih, taColumnsStep_fst]
    simp

theorem taColumnsScan_fst (ws : Sheet) : (taColumnsScan ws).1 = sheetColumns ws := by
  unfold taColumnsScan sheetColumns
  rw [taColumnsScan_fst_aux]
  rfl

theorem taColumnsScan_pk_aux (ws : Sheet) :
    ∀ (l : List Nat) (acc : List String × Option Nat × String) (k : Nat),
      (l.foldl (taColumnsStep ws) acc).2.1 = some k → k ∈ l ∨ acc.2.1 = some k := by
  intro l
  induction l with
  | nil => intro acc k h; exact Or.inr h
  | cons c cs ih =>
    intro acc k h
    rcases ih (taColumnsStep ws acc c) k h with h1 | h1
    · exact Or.inl (List.mem_cons_of_mem c h1)
    · unfold taColumnsStep at h1
      dsimp only at h1
      split at h1
      · cases Option.some_inj.mp h1
        exact Or.inl (List.mem_cons_self _ _)
      · exact Or.inr h1

theorem taColumnsScan_pk_lt (ws : Sheet) {k : Nat}
    (h : (taColumnsScan ws).2.1 = some k) : k < ws.maxCol := by
  rcases taColumnsScan_pk_aux ws (List.range ws.maxCol) ([], none, "DUT Serial Number") k h with
    h1 | h1
  · exact List.mem_range.mp h1
  · simp at h1

theorem taRowFold_rowDict (ws : Sheet) (columns : List String) (pkCol r : Nat) :
    ∀ (l : List Nat) (st : TaRowState),
      (l.foldl (taRowCellStep ws columns pkCol r) st).rowDict
        = l.foldl (fun d c =>
            dictInsert (columns.getD c s!"Column{c+1}") (cellStr (ws.cell r c)) d) st.rowDict := by
  intro l
  induction l with
  | nil => intro st; rfl
  | cons c cs ih =>
    intro st
    rw [List.foldl_cons, ih, List.foldl_cons]
    rfl

theorem taRowFold_pkVal (ws : Sheet) (columns : List String) (pkCol r : Nat) :
    ∀ (l : List Nat) (st : TaRowState),
      (l.foldl (taRowCellStep ws columns pkCol r) st).pkVal
        = if pkCol ∈ l then some (cellStr (ws.cell r pkCol)) else st.pkVal := by
  intro l
  induction l with
  | nil => intro st; simp
  | cons c cs ih =>
    intro st
    rw [List.foldl_cons, ih]
    by_cases hcs : pkCol ∈ cs
    · rw [if_pos hcs, if_pos (List.mem_cons_of_mem c hcs)]
    · rw [if_neg hcs]
      by_cases hc : c = pkCol
      · subst hc
        simp [taRowCellStep]
      · have hne : pkCol ≠ c := fun h => hc h.symm
        have hnm : pkCol ∉ c :: cs := by simp [List.mem_cons, hne, hcs]
        rw [if_neg hnm]
        simp [taRowCellStep, hc]

theorem taRowFold_hasData (ws : Sheet) (columns : List String) (pkCol r : Nat) :
    ∀ (l : List Nat) (st : TaRowState),
      (l.foldl (taRowCellStep ws columns pkCol r) st).hasData
        = (st.hasData || l.any fun c => decide (cellStr (ws.cell r c) ≠ "")) := by
  intro l
  induction l with
  | nil => intro st; simp
  | cons c cs ih =>
    intro st
    rw [List.foldl_cons, ih]
    simp [taRowCellStep, Bool.or_assoc]

theorem taProcessRow_rowDict (ws : Sheet) (columns : List String) (pkCol : Nat)
    (trc : List String) (r : Nat) :
    (taProcessRow ws columns pkCol trc r).rowDict = taRowDict ws columns r := by
  unfold taProcessRow taRowDict
  rw [taRowFold_rowDict]

theorem taProcessRow_pkVal (ws : Sheet) (columns : List String) {pkCol : Nat}
    (trc : List String) (r : Nat) (hpk : pkCol < ws.maxCol) :
    (taProcessRow ws columns pkCol trc r).pkVal = some (cellStr (ws.cell r pkCol)) := by
  unfold taProcessRow
  rw [taRowFold_pkVal, if_pos (List.mem_range.mpr hpk)]

theorem taProcessRow_hasData (ws : Sheet) (columns : List String) (pkCol : Nat)
    (trc : List String) (r : Nat) :
    (taProcessRow ws columns pkCol trc r).hasData
      = (List.range ws.maxCol).any fun c => decide (cellStr (ws.cell r c) ≠ "") := by
  unfold taProcessRow
  rw [taRowFold_hasData]
  simp

theorem dictInsert_map_fst {α : Type} (k : String) (v : α) :
    ∀ d : List (String × α),
      (dictInsert k v d).map Prod.fst
        = if k ∈ d.map Prod.fst then d.map Prod.fst else d.map Prod.fst ++ [k] := by
  intro d
  induction d with
  | nil => simp [dictInsert]
  | cons p rest ih =>
    by_cases hp : p.1 = k
    · simp [dictInsert, hp]
    · have hp' : k ≠ p.1 := fun h => hp h.symm
      by_cases hk : k ∈ rest.map Prod.fst
      · simp [dictInsert, hp, hp', ih, hk]
      · simp [dictInsert, hp, hp', ih, hk]

theorem dictFind?_insert_self {α : Type} (k : String) (v : α) :
    ∀ d : List (String × α), dictFind? k (dictInsert k v d) = some v := by
  intro d
  induction d with
  | nil => simp [dictInsert, dictFind?]
  | cons p rest ih =>
    by_cases hp : p.1 = k
    · simp [dictInsert, dictFind?, hp]
    · simp [dictInsert, dictFind?, hp, ih]

theorem dictFind?_insert_other {α : Type} {k k' : String} (h : k' ≠ k) (v : α) :
    ∀ d : List (String × α), dictFind? k (dictInsert k' v d) = dictFind? k d := by
  intro d
  induction d with
  | nil => simp [dictInsert, dictFind?, h]
  | cons p rest ih =>
    have h' : k ≠ k' := fun hh => h hh.symm
    by_cases hp : p.1 = k'
    · simp [dictInsert, dictFind?, hp, h, h']
    · by_cases hpk : p.1 = k
      · simp [dictInsert, dictFind?, hp, hpk, h, h', ih]
      · simp [dictInsert, dictFind?, hp, hpk, ih]

theorem dictFoldInsert_find {α : Type} (k : String) :
    ∀ (pairs acc : List (String × α)),
      dictFind? k (pairs.foldl (fun d p => dictInsert p.1 p.2 d) acc)
        = pairs.foldl (fun o p => if p.1 = k then some p.2 else o) (dictFind? k acc) := by
  intro pairs
  induction pairs with
  | nil => intro acc; rfl
  | cons p ps ih =>
    intro acc
    rw [List.foldl_cons, List.foldl_cons, ih]
    by_cases hp : p.1 = k
    · rw [if_pos hp, hp, dictFind?_insert_self]
    · rw [if_neg hp, dictFind?_insert_other hp]

theorem dictFoldInsert_map_fst {α : Type} :
    ∀ (pairs acc : List (String × α)),
      (pairs.foldl (fun d p => dictInsert p.1 p.2 d) acc).map Prod.fst
        = pairs.foldl (fun ks p => insertIfAbsent p.1 ks) (acc.map Prod.fst) := by
  intro pairs
  induction pairs with
  | nil => intro acc; rfl
  | cons p ps ih =>
    intro acc
    rw [List.foldl_cons, List.foldl_cons, ih, dictInsert_map_fst]
    rfl

theorem specKeptRows_map_fst (ws : Sheet) (pkCol : Nat) :
    (specKeptRows ws pkCol).map Prod.fst = specKeptPkValues ws pkCol := by
  unfold specKeptRows specKeptPkValues
  rw [List.map_filterMap]
  apply List.filterMap_congr
  intro i _
  dsimp only
  split <;> rfl

theorem taRecords_fold (ws : Sheet) (columns : List String) {pkCol : Nat}
    (hpk : pkCol < ws.maxCol) :
    ∀ (idxs : List Nat) (recs : List (String × List (String × String))) (trc : List String),
      (idxs.foldl (taRecordsStep ws columns pkCol) (recs, trc)).1
        = (idxs.filterMap fun i =>
            if ((List.range ws.maxCol).any fun c => cellStr (ws.cell (i+1) c) ≠ "")
                ∧ cellStr (ws.cell (i+1) pkCol) ≠ ""
            then some (cellStr (ws.cell (i+1) pkCol), taRowDict ws columns (i+1))
            else none).foldl (fun d p => dictInsert p.1 p.2 d) recs := by
  intro idxs
  induction idxs with
  | nil => intro recs trc; rfl
  | cons i is ih =>
    intro recs trc
    rw [List.foldl_cons]
    have hpkv := taProcessRow_pkVal ws columns trc (i+1) hpk
    have hhd := taProcessRow_hasData ws columns pkCol trc (i+1)
    have hrd := taProcessRow_rowDict ws columns pkCol trc (i+1)
    by_cases hcond :
        (((List.range ws.maxCol).any fun c => cellStr (ws.cell (i+1) c) ≠ "") : Bool)
          ∧ cellStr (ws.cell (i+1) pkCol) ≠ ""
    · have hstep : taRecordsStep ws columns pkCol (recs, trc) i
          = (dictInsert (cellStr (ws.cell (i+1) pkCol)) (taRowDict ws columns (i+1)) recs,
             (taProcessRow ws columns pkCol trc (i+1)).trc) := by
        unfold taRecordsStep
        dsimp only
        rw [hpkv]
        simp only [Option.getD_some]
        rw [if_pos (by rw [hhd]; exact hcond), hrd]
      rw [hstep,
        List.filterMap_cons_some (by rw [if_pos hcond]), List.foldl_cons, ih]
    · have hstep : taRecordsStep ws columns pkCol (recs, trc) i
          = (recs, (taProcessRow ws columns pkCol trc (i+1)).trc) := by
        unfold taRecordsStep
        dsimp only
        rw [hpkv]
        simp only [Option.getD_some]
        rw [if_neg (by rw [hhd]; exact hcond)]
      rw [hstep, List.filterMap_cons_none (by rw [if_neg hcond]), ih]

/-- C10: under the parse's own preconditions (at least one data row and a
located primary-key column), the record map's key list is exactly the
first-occurrence deduplication of the non-empty key-cell values of the
non-empty data rows — a row with an empty key cell is excluded even when
other cells hold data — `total_units` counts exactly those keys, and the
record stored under a key is the dictionary of the LAST kept row carrying
it (later duplicates overwrite earlier ones). -/
theorem c10_keyed_records (ws : Sheet) (sheetName : String) (pkCol : Nat)
    (hrow : 2 ≤ ws.maxRow) (hpk : (taColumnsScan ws).2.1 = some pkCol) :
    ∃ d, parseTestArticleSheet ws sheetName = some d ∧
      d.records.map Prod.fst = dedupFirst (specKeptPkValues ws pkCol) ∧
      d.totalUnits = (dedupFirst (specKeptPkValues ws pkCol)).length ∧
      ∀ k, dictFind? k d.records = lastMatch k (specKeptRows ws pkCol) := by
  have hlt : pkCol < ws.maxCol := taColumnsScan_pk_lt ws hpk
  have h2 : ¬ ws.maxRow < 2 := by omega
  have hrecords : ((List.range (ws.maxRow - 1)).foldl
        (taRecordsStep ws (taColumnsScan ws).1 pkCol) ([], [])).1
      = (specKeptRows ws pkCol).foldl (fun d p => dictInsert p.1 p.2 d) [] := by
    rw [taRecords_fold ws (taColumnsScan ws).1 hlt, taColumnsScan_fst]
    rfl
  have hkeys : ((List.range (ws.maxRow - 1)).foldl
        (taRecordsStep ws (taColumnsScan ws).1 pkCol) ([], [])).1.map Prod.fst
      = dedupFirst (specKeptPkValues ws pkCol) := by
    rw [hrecords, dictFoldInsert_map_fst, ← specKeptRows_map_fst ws pkCol]
    unfold dedupFirst
    rw [List.foldl_map]
    rfl
  have hlen : ((List.range (ws.maxRow - 1)).foldl
        (taRecordsStep ws (taColumnsScan ws).1 pkCol) ([], [])).1.length
      = (dedupFirst (specKeptPkValues ws pkCol)).length := by
    rw [← List.length_map _ Prod.fst, hkeys]
  have hfind : ∀ k, dictFind? k ((List.range (ws.maxRow - 1)).foldl
        (taRecordsStep ws (taColumnsScan ws).1 pkCol) ([], [])).1
      = lastMatch k (specKeptRows ws pkCol) := by
    intro k
    rw [hrecords, dictFoldInsert_find]
    rfl
  unfold parseTestArticleSheet
  rw [if_neg h2]
  simp only [hpk]
  exact ⟨_, rfl, hkeys, hlen, hfind⟩

/-- C10 witness: a concrete sheet with a keyless data row (excluded despite
its FAIL cell) and a duplicated serial number (last row wins). -/
theorem c10_witness :
    2 ≤ (Sheet.mk 2 [[some "DUT Serial Number", some "Test Result 1"],
        [some "A1", some "PASS"], [none, some "FAIL"], [some "A1", some "TML"]]).maxRow ∧
    (taColumnsScan (Sheet.mk 2 [[some "DUT Serial Number", some "Test Result 1"],
        [some "A1", some "PASS"], [none, some "FAIL"], [some "A1", some "TML"]])).2.1 = some 0 ∧
    ∃ d, parseTestArticleSheet (Sheet.mk 2 [[some "DUT Serial Number", some "Test Result 1"],
          [some "A1", some "PASS"], [none, some "FAIL"], [some "A1", some "TML"]]) "TEST ARTICLE LOG"
        = some d ∧
      d.records.map Prod.fst = dedupFirst (specKeptPkValues (Sheet.mk 2
          [[some "DUT Serial Number", some "Test Result 1"],
           [some "A1", some "PASS"], [none, some "FAIL"], [some "A1", some "TML"]]) 0) ∧
      d.totalUnits = (dedupFirst (specKeptPkValues (Sheet.mk 2
          [[some "DUT Serial Number", some "Test Result 1"],
           [some "A1", some "PASS"], [none, some "FAIL"], [some "A1", some "TML"]]) 0)).length ∧
      ∀ k, dictFind? k d.records = lastMatch k (specKeptRows (Sheet.mk 2
          [[some "DUT Serial Number", some "Test Result 1"],
           [some "A1", some "PASS"], [none, some "FAIL"], [some "A1", some "TML"]]) 0) :=
  ⟨by decide, by decide,
   c10_keyed_records (Sheet.mk 2 [[some "DUT Serial Number", some "Test Result 1"],
       [some "A1", some "PASS"], [none, some "FAIL"], [some "A1", some "TML"]])
     "TEST ARTICLE LOG" 0 (by decide) (by decide)⟩

/-! ## C1: failure behavior of the generation tasks -/

theorem createFallbackSection_ne_empty (cfg : DeviceConfig) : createFallbackSection cfg ≠ "" := by
  intro hcontra
  have hlen : (createFallbackSection cfg).length = 0 := by
    rw [hcontra]
    rfl
  simp only [createFallbackSection, String.length_append] at hlen
  have hp : 0 < ("DEVICE UNDER TEST CONFIGURATION\n\nThe test units were " : String).length := by
    decide
  omega

/-- C1 (counterexample): at the two cited sites, a raised generation call
yields `success = False`, not the claimed `success = True`. -/
theorem c1_counterexample :
    (processDeviations ⟨id, fun _ => 0⟩ "=== DEVIATIONS ===\nDeviation 1 row"
        (Except.error "transport failure")).success = false ∧
    (createDeviceConfigurationSection "No test article data found in uploaded files."
        ⟨false, false, none⟩ (Except.error "transport failure")).success = false := by
  constructor <;> rfl

/-- C1 (amended): no exception escapes either cited task — each returns a
`TaskResult` — but with `success = False` on the failure paths: on a raised
generation call, `process_deviations` returns the non-empty fallback
`"No deviations."` and `create_device_configuration_section` returns its
non-empty fallback section; on empty generated content,
`process_deviations` returns `success = False` with `"No deviations."`,
while `create_device_configuration_section` returns `success = True` with
the empty content unchanged. -/
theorem c1_failure_fallbacks (post : DeviationsPost) (cfg : DeviceConfig)
    (txt e excel : String)
    (h : ¬ (txt = "" ∨ pyStrip txt = "No deviations data found.")) :
    ((processDeviations post txt (Except.error e)).success = false ∧
      (processDeviations post txt (Except.error e)).content = "No deviations." ∧
      ("No deviations." : String) ≠ "") ∧
    ((processDeviations post txt (Except.ok "")).success = false ∧
      (processDeviations post txt (Except.ok "")).content = "No deviations.") ∧
    ((createDeviceConfigurationSection excel cfg (Except.error e)).success = false ∧
      (createDeviceConfigurationSection excel cfg (Except.error e)).content
        = createFallbackSection cfg ∧
      createFallbackSection cfg ≠ "") ∧
    ((createDeviceConfigurationSection excel cfg (Except.ok "")).success = true ∧
      (createDeviceConfigurationSection excel cfg (Except.ok "")).content = "") := by
  refine ⟨⟨?_, ?_, by decide⟩, ⟨?_, ?_⟩,
    ⟨?_, ?_, createFallbackSection_ne_empty cfg⟩, ⟨?_, ?_⟩⟩ <;>
    simp [processDeviations, createDeviceConfigurationSection, h]

/-- C1 witness: the amended failure semantics at concrete inputs. -/
theorem c1_witness :
    ¬ (("=== DEVIATIONS ===\nrow 1" : String) = ""
        ∨ pyStrip "=== DEVIATIONS ===\nrow 1" = "No deviations data found.") ∧
    ((processDeviations ⟨id, fun _ => 0⟩ "=== DEVIATIONS ===\nrow 1"
        (Except.error "boom")).success = false ∧
      (processDeviations ⟨id, fun _ => 0⟩ "=== DEVIATIONS ===\nrow 1"
        (Except.error "boom")).content = "No deviations." ∧
      ("No deviations." : String) ≠ "") ∧
    ((processDeviations ⟨id, fun _ => 0⟩ "=== DEVIATIONS ===\nrow 1"
        (Except.ok "")).success = false ∧
      (processDeviations ⟨id, fun _ => 0⟩ "=== DEVIATIONS ===\nrow 1"
        (Except.ok "")).content = "No deviations.") ∧
    ((createDeviceConfigurationSection "" ⟨true, true, some "resized housing"⟩
        (Except.error "boom")).success = false ∧
      (createDeviceConfigurationSection "" ⟨true, true, some "resized housing"⟩
        (Except.error "boom")).content
        = createFallbackSection ⟨true, true, some "resized housing"⟩ ∧
      createFallbackSection ⟨true, true, some "resized housing"⟩ ≠ "") ∧
    ((createDeviceConfigurationSection "" ⟨true, true, some "resized housing"⟩
        (Except.ok "")).success = true ∧
      (createDeviceConfigurationSection "" ⟨true, true, some "resized housing"⟩
        (Except.ok "")).content = "") :=
  ⟨by decide,
   c1_failure_fallbacks ⟨id, fun _ => 0⟩ ⟨true, true, some "resized housing"⟩
     "=== DEVIATIONS ===\nrow 1" "boom" "" (by decide)⟩

/-! ## C6: actual confidence of the attribute table -/

/-- C6: in every attribute-table row the reported actual
confidence/reliability cell is `attrConfidenceCell`; for a parsable
confidence/reliability string, positive actual sample size and non-negative
defective count it renders `1 - defective/actual` (exactly
`(actual - defective)/actual`) and the target reliability, each formatted
with two decimals; a zero sample size or an unparsable string degrades to
`"TBD"` (the functions are total — no exception); and the concrete
`defective = 1`, `actual = 50` instance yields `98.00%`. -/
theorem c6_attribute_actual_confidence (stats : ExcelStats) (criteria : CriteriaInfo) :
    ((attributeRow stats criteria).getD 7 ""
      = attrConfidenceCell (criteria.confidenceReliability.getD "90%/90%")
          stats.defectiveUnits stats.actualSampleSize) ∧
    (∀ crs conf rel, parseConfRel crs = some (conf, rel) →
      0 < stats.actualSampleSize → 0 ≤ stats.defectiveUnits →
      attrConfidenceCell crs stats.defectiveUnits stats.actualSampleSize
        = formatPercent2 (stats.actualSampleSize - stats.defectiveUnits) stats.actualSampleSize
          ++ " / " ++ formatPercent2 rel.1 ((rel.2 : Int) * 100)) ∧
    (∀ crs f, attrConfidenceCell crs f 0 = "TBD") ∧
    (∀ crs f s, parseConfRel crs = none → attrConfidenceCell crs f s = "TBD") ∧
    attrConfidenceCell "90%/90%" 1 50 = "98.00% / 90.00%" := by
  refine ⟨rfl, ?_, ?_, ?_, by decide⟩
  · intro crs conf rel hparse hs hf
    unfold attrConfidenceCell
    rw [hparse]
    dsimp only
    rw [if_pos ⟨hs, hf⟩]
  · intro crs f
    unfold attrConfidenceCell
    cases hparse : parseConfRel crs with
    | none => rfl
    | some p =>
      dsimp only
      rw [if_neg]
      rintro ⟨hcontra, -⟩
      exact absurd hcontra (lt_irrefl 0)
  · intro crs f s hparse
    unfold attrConfidenceCell
    rw [hparse]

/-- C6 witness: the theorem instantiated at `defective = 1`, `actual = 50`
and the well-formed string `"90%/90%"`. -/
theorem c6_witness :
    parseConfRel "90%/90%" = some ((90, 1), (90, 1)) ∧ (0 : Int) < 50 ∧ (0 : Int) ≤ 1 ∧
    attrConfidenceCell "90%/90%" 1 50
      = formatPercent2 (50 - 1) 50 ++ " / " ++ formatPercent2 90 ((1 : Int) * 100) :=
  ⟨by decide, by decide, by decide,
   (c6_attribute_actual_confidence ⟨50, 0, 50, 1⟩ ⟨some "REQ-1", some "No failures", some "90%/90%"⟩).2.1
     "90%/90%" (90, 1) (90, 1) (by decide) (by decide) (by decide)⟩

/-! ## C5: markdown table to native table -/

theorem startsWith_pipe_contains (l : String) (h : pyStartsWith l "|" = true) :
    pyContainsChar l '|' = true := by
  unfold pyStartsWith at h
  unfold pyContainsChar
  have hdq : ("|" : String).data = ['|'] := rfl
  rw [hdq] at h
  cases hd : l.data with
  | nil => rw [hd] at h; simp [List.isPrefixOf] at h
  | cons c cs =>
    rw [hd] at h
    simp only [List.isPrefixOf, List.isPrefixOf_nil_left, Bool.and_true] at h
    have hc : c = '|' := by
      have := of_decide_eq_true (by simpa [BEq.beq] using h)
      exact this.symm
    rw [hc]
    simp [List.contains_cons]

theorem filterMap_pipe_lines (ls : List String)
    (h : ∀ l ∈ ls, pyStrip l = l ∧ pyStartsWith l "|" = true ∧ pyEndsWith l "|" = true) :
    (ls.filterMap fun line =>
      let s := pyStrip line
      if pyStartsWith s "|" ∧ pyEndsWith s "|" then some s else none) = ls := by
  induction ls with
  | nil => rfl
  | cons l rest ih =>
    rcases h l (List.mem_cons_self l rest) with ⟨hs, h1, h2⟩
    rw [List.filterMap_cons_some]
    · rw [ih fun x hx => h x (List.mem_cons_of_mem l hx)]
    · dsimp only
      rw [hs, if_pos ⟨h1, h2⟩]

theorem filterMap_no_dashes (ls : List String) (h : ∀ l ∈ ls, pyContains l "---" = false) :
    (ls.filterMap fun line =>
      if pyContains line "---" then none else some (innerCells line)) = ls.map innerCells := by
  induction ls with
  | nil => rfl
  | cons l rest ih =>
    rw [List.filterMap_cons_some]
    · rw [List.map_cons, ih fun x hx => h x (List.mem_cons_of_mem l hx)]
    · rw [if_neg]
      simp [h l (List.mem_cons_self l rest)]

theorem range_map_getD {α : Type} (r : List α) (dflt : α) :
    (List.range r.length).map (fun j => r.getD j dflt) = r := by
  apply List.ext_getElem
  · simp
  · intro i h1 h2
    simp [List.getD_eq_getElem?_getD, List.getElem?_eq_getElem h2]

/-- C5 (counterexample): a well-formed table (header, separator, one data
row, two matching columns) whose data cell contains `"---"` is detected as
a table but converts to a native table with NO data row — 1 row instead of
the claimed N+1 = 2. -/
theorem c5_counterexample :
    containsMarkdownTable "| A | B |\n| --- | --- |\n| a---b | c |" = true ∧
    convertMarkdownTableToWord "| A | B |\n| --- | --- |\n| a---b | c |"
      = some { headerCells := ["A", "B"], dataRows := [] } ∧
    (convertMarkdownTableToWord "| A | B |\n| --- | --- |\n| a---b | c |").map WordTable.nRows
      = some 1 := by
  refine ⟨by decide, by decide, by decide⟩

/-- C5 (amended): a well-formed markdown table block — header row, separator
row and N data rows, all pipe-delimited and trimmed, each data row with the
header's M cells, provided no data-row line contains the substring `"---"`
(such rows are skipped by `convert_markdown_table_to_word`, line 1613) — is
detected by `contains_markdown_table` and converts to a native table with
exactly N+1 rows and M columns whose cells preserve the source cell text,
empty cells included. -/
theorem c5_table_roundtrip (tableText hline sline : String) (dlines : List String) (M : Nat)
    (hstrip : pyStrip tableText = tableText)
    (hdecomp : pySplit '\n' tableText = hline :: sline :: dlines)
    (hpipe : ∀ l ∈ hline :: sline :: dlines,
      pyStrip l = l ∧ pyStartsWith l "|" = true ∧ pyEndsWith l "|" = true)
    (hM : (innerCells hline).length = M) (hMpos : 0 < M)
    (hsep : pyContains sline "---" = true)
    (hrows : ∀ l ∈ dlines, (innerCells l).length = M ∧ pyContains l "---" = false) :
    containsMarkdownTable tableText = true ∧
    ∃ t, convertMarkdownTableToWord tableText = some t ∧
      t.headerCells = innerCells hline ∧ t.dataRows = dlines.map innerCells ∧
      t.nRows = dlines.length + 1 ∧ t.nCols = M := by
  constructor
  · unfold containsMarkdownTable
    rw [hdecomp]
    have h1 : pyContainsChar hline '|' = true :=
      startsWith_pipe_contains hline (hpipe hline (by simp)).2.1
    have h2 : pyContainsChar sline '|' = true :=
      startsWith_pipe_contains sline (hpipe sline (by simp)).2.1
    simp only [List.filter_cons, h1, h2, if_pos, hsep, Bool.true_or, List.length_cons]
    simp
    split <;> simp
  · unfold convertMarkdownTableToWord
    rw [hstrip, hdecomp]
    rw [if_neg (by simp)]
    rw [filterMap_pipe_lines _ hpipe]
    rw [if_neg (by simp)]
    have hdrop : (hline :: sline :: dlines).drop 2 = dlines := rfl
    have hget : (hline :: sline :: dlines).getD 0 "" = hline := rfl
    rw [hdrop, hget, filterMap_no_dashes _ (fun l hl => (hrows l hl).2)]
    rw [if_neg (by
      intro hcontra
      rw [hcontra] at hM
      simp at hM
      omega)]
    refine ⟨_, rfl, ?_, ?_, ?_, ?_⟩
    · rw [range_map_getD]
    · rw [List.map_map]
      apply List.map_congr_left
      intro l hl
      have hlen : (innerCells l).length = (innerCells hline).length := by
        rw [(hrows l hl).1, hM]
      simp only [Function.comp]
      rw [← hlen, range_map_getD]
    · show 1 + (dlines.map innerCells |>.map _).length = dlines.length + 1
      simp [Nat.add_comm]
    · show ((List.range (innerCells hline).length).map _).length = M
      simp [hM]

/-- C5 witness: a concrete 1-data-row, 2-column table with an empty cell. -/
theorem c5_witness :
    (∀ l ∈ ["| A | B |", "| --- | --- |", "| 1 |  |"],
      pyStrip l = l ∧ pyStartsWith l "|" = true ∧ pyEndsWith l "|" = true) ∧
    ∃ t, convertMarkdownTableToWord "| A | B |\n| --- | --- |\n| 1 |  |" = some t ∧
      t.headerCells = innerCells "| A | B |" ∧
      t.dataRows = ["| 1 |  |"].map innerCells ∧
      t.nRows = 1 + 1 ∧ t.nCols = 2 :=
  ⟨by decide,
   ((c5_table_roundtrip "| A | B |\n| --- | --- |\n| 1 |  |" "| A | B |" "| --- | --- |"
      ["| 1 |  |"] 2 (by decide) (by decide) (by decide) (by decide) (by decide)
      (by decide) (by decide)).2)⟩

/-! ## C7: failure semantics of the combined Excel parse -/

theorem parseUploadedFile_corrupt {α : Type} (parseExcel : Workbook → List (String × α))
    {f : PyFile} {e : String} (hf : f.workbook = Except.error e) :
    parseUploadedFile parseExcel f = [] := by
  unfold parseUploadedFile
  rw [hf]

theorem parseAllStep_corrupt {f : PyFile} {e : String} (hf : f.workbook = Except.error e)
    (s : CombinedResults) :
    parseAllStep s (some f)
      = { s with summary := { s.summary with filesProcessed := s.summary.filesProcessed + 1 } } := by
  unfold parseAllStep
  dsimp only
  rw [parseUploadedFile_corrupt testArticleParseExcelFile hf,
      parseUploadedFile_corrupt equipmentParseExcelFile hf,
      parseUploadedFile_corrupt deviationsParseExcelFile hf,
      parseUploadedFile_corrupt defectiveParseExcelFile hf]
  simp

theorem parseAllStep_errors (file? : Option PyFile) (s : CombinedResults) :
    (parseAllStep s file?).summary.errors = s.summary.errors := by
  cases file? with
  | none => rfl
  | some f =>
    simp only [parseAllStep]
    split_ifs <;> rfl

theorem parseAllStep_filesProcessed (file? : Option PyFile) (s : CombinedResults) :
    (parseAllStep s file?).summary.filesProcessed
      = s.summary.filesProcessed + (if file?.isSome then 1 else 0) := by
  cases file? with
  | none => rfl
  | some f =>
    show (parseAllStep s (some f)).summary.filesProcessed = s.summary.filesProcessed + 1
    simp only [parseAllStep]
    split_ifs <;> rfl

theorem foldl_parseAll_errors :
    ∀ (files : List (Option PyFile)) (s : CombinedResults),
      (files.foldl parseAllStep s).summary.errors = s.summary.errors := by
  intro files
  induction files with
  | nil => intro s; rfl
  | cons f fs ih => intro s; rw [List.foldl_cons, ih, parseAllStep_errors]

theorem foldl_parseAll_filesProcessed :
    ∀ (files : List (Option PyFile)) (s : CombinedResults),
      (files.foldl parseAllStep s).summary.filesProcessed
        = s.summary.filesProcessed + files.countP Option.isSome := by
  intro files
  induction files with
  | nil => intro s; simp
  | cons f fs ih =>
    intro s
    rw [List.foldl_cons, ih, parseAllStep_filesProcessed, List.countP_cons]
    cases f
    · simp
    · simp
      omega

theorem parseAllStep_agree (file? : Option PyFile) (s₁ s₂ : CombinedResults)
    (h : s₁.testArticleData = s₂.testArticleData ∧ s₁.equipmentLogData = s₂.equipmentLogData
      ∧ s₁.deviationsData = s₂.deviationsData ∧ s₁.defectiveUnitsData = s₂.defectiveUnitsData
      ∧ s₁.summary.sheetsFound = s₂.summary.sheetsFound
      ∧ s₁.summary.errors = s₂.summary.errors) :
    (parseAllStep s₁ file?).testArticleData = (parseAllStep s₂ file?).testArticleData
      ∧ (parseAllStep s₁ file?).equipmentLogData = (parseAllStep s₂ file?).equipmentLogData
      ∧ (parseAllStep s₁ file?).deviationsData = (parseAllStep s₂ file?).deviationsData
      ∧ (parseAllStep s₁ file?).defectiveUnitsData = (parseAllStep s₂ file?).defectiveUnitsData
      ∧ (parseAllStep s₁ file?).summary.sheetsFound = (parseAllStep s₂ file?).summary.sheetsFound
      ∧ (parseAllStep s₁ file?).summary.errors = (parseAllStep s₂ file?).summary.errors := by
  obtain ⟨h1, h2, h3, h4, h5, h6⟩ := h
  cases file? with
  | none => exact ⟨h1, h2, h3, h4, h5, h6⟩
  | some f =>
    simp only [parseAllStep]
    split_ifs <;> simp_all

theorem foldl_parseAll_agree :
    ∀ (files : List (Option PyFile)) (s₁ s₂ : CombinedResults),
      (s₁.testArticleData = s₂.testArticleData ∧ s₁.equipmentLogData = s₂.equipmentLogData
        ∧ s₁.deviationsData = s₂.deviationsData ∧ s₁.defectiveUnitsData = s₂.defectiveUnitsData
        ∧ s₁.summary.sheetsFound = s₂.summary.sheetsFound
        ∧ s₁.summary.errors = s₂.summary.errors) →
      ((files.foldl parseAllStep s₁).testArticleData = (files.foldl parseAllStep s₂).testArticleData
        ∧ (files.foldl parseAllStep s₁).equipmentLogData
            = (files.foldl parseAllStep s₂).equipmentLogData
        ∧ (files.foldl parseAllStep s₁).deviationsData
            = (files.foldl parseAllStep s₂).deviationsData
        ∧ (files.foldl parseAllStep s₁).defectiveUnitsData
            = (files.foldl parseAllStep s₂).defectiveUnitsData
        ∧ (files.foldl parseAllStep s₁).summary.sheetsFound
            = (files.foldl parseAllStep s₂).summary.sheetsFound
        ∧ (files.foldl parseAllStep s₁).summary.errors
            = (files.foldl parseAllStep s₂).summary.errors) := by
  intro files
  induction files with
  | nil => intro s₁ s₂ h; exact h
  | cons f fs ih =>
    intro s₁ s₂ h
    rw [List.foldl_cons, List.foldl_cons]
    exact ih _ _ (parseAllStep_agree f s₁ s₂ h)

/-- C7 (counterexample): a corrupt workbook does NOT leave an error in the
parsing summary — the error list stays empty (the exception is swallowed by
`parse_uploaded_file`, which returns `{}`), while the file still counts as
processed. -/
theorem c7_counterexample :
    (parseAllExcelFiles [some ⟨"log.xlsx", Except.error "zip archive corrupt"⟩]).summary.errors
      = [] ∧
    (parseAllExcelFiles [some ⟨"log.xlsx", Except.error "zip archive corrupt"⟩]).testArticleData
      = [] ∧
    (parseAllExcelFiles [some ⟨"log.xlsx", Except.error "zip archive corrupt"⟩]).summary.filesProcessed
      = 1 := by
  refine ⟨rfl, rfl, rfl⟩

/-- C7 (amended): a worksheet that cannot be located yields an empty
extraction; a corrupt workbook yields an empty extraction (not an error):
its exception is caught inside `parse_uploaded_file`, the parsing-summary
error list stays empty on every input, the other files' extractions are
exactly those of the run without the corrupt file, and the corrupt file is
still counted as processed. -/
theorem c7_corrupt_workbook_isolated (pre post : List (Option PyFile))
    (f : PyFile) (e : String) (hf : f.workbook = Except.error e) :
    ((parseAllExcelFiles (pre ++ some f :: post)).testArticleData
        = (parseAllExcelFiles (pre ++ post)).testArticleData
      ∧ (parseAllExcelFiles (pre ++ some f :: post)).equipmentLogData
          = (parseAllExcelFiles (pre ++ post)).equipmentLogData
      ∧ (parseAllExcelFiles (pre ++ some f :: post)).deviationsData
          = (parseAllExcelFiles (pre ++ post)).deviationsData
      ∧ (parseAllExcelFiles (pre ++ some f :: post)).defectiveUnitsData
          = (parseAllExcelFiles (pre ++ post)).defectiveUnitsData
      ∧ (parseAllExcelFiles (pre ++ some f :: post)).summary.sheetsFound
          = (parseAllExcelFiles (pre ++ post)).summary.sheetsFound) ∧
    (parseAllExcelFiles (pre ++ some f :: post)).summary.errors = [] ∧
    (parseAllExcelFiles (pre ++ post)).summary.errors = [] ∧
    (parseAllExcelFiles (pre ++ some f :: post)).summary.filesProcessed
      = (parseAllExcelFiles (pre ++ post)).summary.filesProcessed + 1 ∧
    (∀ wb : Workbook, (∀ p ∈ wb, isTargetTestArticleSheet p.1 = false) →
      testArticleParseExcelFile wb = []) := by
  unfold parseAllExcelFiles
  refine ⟨?_, ?_, ?_, ?_, ?_⟩
  · rw [List.foldl_append, List.foldl_cons, List.foldl_append,
      parseAllStep_corrupt hf]
    have hagree := foldl_parseAll_agree post
      { (List.foldl parseAllStep
          { testArticleData := [], equipmentLogData := [], deviationsData := [],
            defectiveUnitsData := [],
            summary := { filesProcessed := 0, sheetsFound := [], errors := [] } } pre) with
        summary := { (List.foldl parseAllStep
          { testArticleData := [], equipmentLogData := [], deviationsData := [],
            defectiveUnitsData := [],
            summary := { filesProcessed := 0, sheetsFound := [], errors := [] } } pre).summary with
          filesProcessed := (List.foldl parseAllStep
          { testArticleData := [], equipmentLogData := [], deviationsData := [],
            defectiveUnitsData := [],
            summary := { filesProcessed := 0, sheetsFound := [], errors := [] } } pre).summary.filesProcessed + 1 } }
      (List.foldl parseAllStep
          { testArticleData := [], equipmentLogData := [], deviationsData := [],
            defectiveUnitsData := [],
            summary := { filesProcessed := 0, sheetsFound := [], errors := [] } } pre)
      ⟨rfl, rfl, rfl, rfl, rfl, rfl⟩
    exact ⟨hagree.1, hagree.2.1, hagree.2.2.1, hagree.2.2.2.1, hagree.2.2.2.2.1⟩
  · rw [foldl_parseAll_errors]
  · rw [foldl_parseAll_errors]
  · rw [foldl_parseAll_filesProcessed, foldl_parseAll_filesProcessed]
    simp [List.countP_append, List.countP_cons]
    omega
  · intro wb hwb
    unfold testArticleParseExcelFile
    have hfind : wb.find? (fun p => isTargetTestArticleSheet p.1) = none := by
      rw [List.find?_eq_none]
      intro p hp
      simp [hwb p hp]
    rw [hfind]

/-- C7 witness: a corrupt file between two good files leaves the good
files' extractions untouched. -/
theorem c7_witness :
    (⟨"bad.xlsx", Except.error "zip"⟩ : PyFile).workbook = Except.error "zip" ∧
    (parseAllExcelFiles ([some ⟨"a.xlsx", Except.ok [("EQUIPMENT LOG",
          ⟨1, [[some "Name"], [some "Caliper"]]⟩)]⟩]
        ++ some ⟨"bad.xlsx", Except.error "zip"⟩
          :: [some ⟨"b.xlsx", Except.ok [("DEVIATIONS",
              ⟨1, [[some "Deviation"], [some "None"]]⟩)]⟩])).equipmentLogData
      = (parseAllExcelFiles ([some ⟨"a.xlsx", Except.ok [("EQUIPMENT LOG",
          ⟨1, [[some "Name"], [some "Caliper"]]⟩)]⟩]
        ++ [some ⟨"b.xlsx", Except.ok [("DEVIATIONS",
              ⟨1, [[some "Deviation"], [some "None"]]⟩)]⟩])).equipmentLogData ∧
    (parseAllExcelFiles ([some ⟨"a.xlsx", Except.ok [("EQUIPMENT LOG",
          ⟨1, [[some "Name"], [some "Caliper"]]⟩)]⟩]
        ++ some ⟨"bad.xlsx", Except.error "zip"⟩
          :: [some ⟨"b.xlsx", Except.ok [("DEVIATIONS",
              ⟨1, [[some "Deviation"], [some "None"]]⟩)]⟩])).summary.errors = [] :=
  ⟨rfl,
   (c7_corrupt_workbook_isolated
      [some ⟨"a.xlsx", Except.ok [("EQUIPMENT LOG", ⟨1, [[some "Name"], [some "Caliper"]]⟩)]⟩]
      [some ⟨"b.xlsx", Except.ok [("DEVIATIONS", ⟨1, [[some "Deviation"], [some "None"]]⟩)]⟩]
      ⟨"bad.xlsx", Except.error "zip"⟩ "zip" rfl).1.2.1,
   (c7_corrupt_workbook_isolated
      [some ⟨"a.xlsx", Except.ok [("EQUIPMENT LOG", ⟨1, [[some "Name"], [some "Caliper"]]⟩)]⟩]
      [some ⟨"b.xlsx", Except.ok [("DEVIATIONS", ⟨1, [[some "Deviation"], [some "None"]]⟩)]⟩]
      ⟨"bad.xlsx", Except.error "zip"⟩ "zip" rfl).2.1⟩

/-! ## C8: missing-placeholder fallback in `create_word_document_from_template` -/

theorem dictFind?_maybeInsert_other {k key : String} (h : key ≠ k) (v : Option String)
    (cm : List (String × String)) :
    dictFind? k (maybeInsert key v cm) = dictFind? k cm := by
  cases v with
  | none => rfl
  | some s => exact dictFind?_insert_other h s cm

set_option maxHeartbeats 1600000 in
theorem extractStep_find_other (h : ExtractHelpers) (sections cm : List (String × String))
    (e : String × String) (k : String)
    (hk : k ≠ "BK_PURPOSE_TEXT" ∧ k ≠ "BK_SCOPE_TEXT" ∧ k ≠ "BK_ACRONYMS" ∧
          k ≠ "BK_DEFINITIONS" ∧ k ≠ "BK_REFERENCES" ∧ k ≠ "BK_PROCEDURE_SUMMARY" ∧
          k ≠ "BK_DUT_CONFIG" ∧ k ≠ "BK_TEST_EXECUTION_CHRONOLOGY" ∧
          k ≠ "BK_CONSUMABLES_USED" ∧ k ≠ "BK_TEST_METHOD_LOSS_INVESTIGATIONS" ∧
          k ≠ "BK_PROTOCOL_DEVIATIONS" ∧ k ≠ "BK_DEFECTIVE_UNIT" ∧
          k ≠ "BK_TEST_RESULT_SUMMARY" ∧ k ≠ "BK_TEST_RESULT_ANALYSIS") :
    dictFind? k (extractStep h sections cm e) = dictFind? k cm := by
  obtain ⟨h1, h2, h3, h4, h5, h6, h7, h8, h9, h10, h11, h12, h13, h14⟩ := hk
  unfold extractStep
  dsimp only
  cases dictFind? e.2 sections with
  | none => rfl
  | some sc =>
    dsimp only
    by_cases hb1 : e.1 = "[BK_PURPOSE_TEXT]"
    · rw [if_pos hb1]
      exact dictFind?_maybeInsert_other (Ne.symm h1) _ _
    rw [if_neg hb1]
    by_cases hb2 : e.1 = "[BK_SCOPE_TEXT]"
    · rw [if_pos hb2]
      exact dictFind?_maybeInsert_other (Ne.symm h2) _ _
    rw [if_neg hb2]
    by_cases hb3 : e.1 = "[BK_ACRONYMS]"
    · rw [if_pos hb3]
      exact dictFind?_insert_other (Ne.symm h3) _ _
    rw [if_neg hb3]
    by_cases hb4 : e.1 = "[BK_DEFINITIONS]"
    · rw [if_pos hb4]
      exact dictFind?_maybeInsert_other (Ne.symm h4) _ _
    rw [if_neg hb4]
    by_cases hb5 : e.1 = "[BK_REFERENCES]"
    · rw [if_pos hb5]
      exact dictFind?_insert_other (Ne.symm h5) _ _
    rw [if_neg hb5]
    by_cases hb6 : e.1 = "[BK_PROCEDURE_SUMMARY]"
    · rw [if_pos hb6]
      exact dictFind?_insert_other (Ne.symm h6) _ _
    rw [if_neg hb6]
    by_cases hb7 : e.1 = "[BK_DUT_CONFIG]"
    · rw [if_pos hb7]
      exact dictFind?_insert_other (Ne.symm h7) _ _
    rw [if_neg hb7]
    by_cases hb8 : e.1 = "[BK_TEST_EXECUTION_CHRONOLOGY]"
    · rw [if_pos hb8]
      exact dictFind?_insert_other (Ne.symm h8) _ _
    rw [if_neg hb8]
    by_cases hb9 : e.1 = "[BK_CONSUMABLES_USED]"
    · rw [if_pos hb9]
      exact dictFind?_insert_other (Ne.symm h9) _ _
    rw [if_neg hb9]
    by_cases hb10 : e.1 = "[BK_TEST_METHOD_LOSS_INVESTIGATIONS]"
    · rw [if_pos hb10]
      exact dictFind?_insert_other (Ne.symm h10) _ _
    rw [if_neg hb10]
    by_cases hb11 : e.1 = "[BK_PROTOCOL_DEVIATIONS]"
    · rw [if_pos hb11]
      exact dictFind?_insert_other (Ne.symm h11) _ _
    rw [if_neg hb11]
    by_cases hb12 : e.1 = "[BK_DEFECTIVE_UNIT]"
    · rw [if_pos hb12]
      exact dictFind?_insert_other (Ne.symm h12) _ _
    rw [if_neg hb12]
    by_cases hb13 : e.1 = "[BK_TEST_RESULT_SUMMARY]"
    · rw [if_pos hb13]
      exact dictFind?_insert_other (Ne.symm h13) _ _
    rw [if_neg hb13]
    by_cases hb14 : e.1 = "[BK_TEST_RESULT_ANALYSIS]"
    · rw [if_pos hb14]
      exact dictFind?_insert_other (Ne.symm h14) _ _
    rw [if_neg hb14]

theorem extractContentSections_find_other (h : ExtractHelpers)
    (sections : List (String × String)) (k : String)
    (hk : k ≠ "BK_PURPOSE_TEXT" ∧ k ≠ "BK_SCOPE_TEXT" ∧ k ≠ "BK_ACRONYMS" ∧
          k ≠ "BK_DEFINITIONS" ∧ k ≠ "BK_REFERENCES" ∧ k ≠ "BK_PROCEDURE_SUMMARY" ∧
          k ≠ "BK_DUT_CONFIG" ∧ k ≠ "BK_TEST_EXECUTION_CHRONOLOGY" ∧
          k ≠ "BK_CONSUMABLES_USED" ∧ k ≠ "BK_TEST_METHOD_LOSS_INVESTIGATIONS" ∧
          k ≠ "BK_PROTOCOL_DEVIATIONS" ∧ k ≠ "BK_DEFECTIVE_UNIT" ∧
          k ≠ "BK_TEST_RESULT_SUMMARY" ∧ k ≠ "BK_TEST_RESULT_ANALYSIS") :
    dictFind? k (extractContentSections h sections) = none := by
  unfold extractContentSections
  have hfold : ∀ (entries : List (String × String)) (cm : List (String × String)),
      dictFind? k (entries.foldl (extractStep h sections) cm) = dictFind? k cm := by
    intro entries
    induction entries with
    | nil => intro cm; rfl
    | cons e rest ih =>
      intro cm
      rw [List.foldl_cons, ih, extractStep_find_other h sections cm e k hk]
  rw [hfold]
  rfl

theorem missingAppend_fold (cm : List (String × String)) (found : List String) :
    ∀ (entries : List (String × String)) (blocks : List String),
      entries.foldl (missingAppendStep cm found) blocks
        = blocks ++
          (entries.filterMap fun e =>
            if e.1 ∉ found ∧ dictGetD (cleanPlaceholderName e.1) cm "" ≠ ""
            then some ["", missingNoteFor e.1, dictGetD (cleanPlaceholderName e.1) cm ""]
            else none).flatten := by
  intro entries
  induction entries with
  | nil => intro blocks; simp
  | cons e rest ih =>
    intro blocks
    rw [List.foldl_cons, ih]
    by_cases hf : e.1 ∈ found
    · rw [List.filterMap_cons_none (by rw [if_neg]; rintro ⟨h1, -⟩; exact h1 hf)]
      have hstep : missingAppendStep cm found blocks e = blocks := by
        unfold missingAppendStep
        rw [if_neg (by simpa using hf)]
      rw [hstep]
    · by_cases hrc : dictGetD (cleanPlaceholderName e.1) cm "" = ""
      · rw [List.filterMap_cons_none (by rw [if_neg]; rintro ⟨-, h2⟩; exact h2 hrc)]
        have hstep : missingAppendStep cm found blocks e = blocks := by
          unfold missingAppendStep
          rw [if_pos hf]
          dsimp only
          rw [if_neg (by simpa using hrc)]
        rw [hstep]
      · rw [List.filterMap_cons_some (by rw [if_pos ⟨hf, hrc⟩])]
        have hstep : missingAppendStep cm found blocks e
            = blocks ++ ["", missingNoteFor e.1, dictGetD (cleanPlaceholderName e.1) cm ""] := by
          unfold missingAppendStep
          rw [if_pos hf]
          dsimp only
          rw [if_pos hrc]
        rw [hstep]
        simp [List.flatten_cons]

/-- C8 counterexample: the spec promises that any known placeholder absent
from the template body still has its generated content appended after a
note, "so no generated content is silently dropped".  Here the model gives
the document assembler a generated conclusion (`sections` holds a non-empty
value under `"conclusion"`, the section key of `[BK_CONCLUSION]` in
`placeholderMapping`) and a template body without any placeholder, yet the
assembled output keeps the body unchanged, finds no placeholder, and
appends nothing: because the `extract_content_sections` chain has no branch
for `[BK_CONCLUSION]`, `content_mapping` never holds a value under
`BK_CONCLUSION` and the missing-placeholder loop skips it, silently
dropping the conclusion. -/
theorem c8_counterexample :
    dictFind? "conclusion" [("conclusion", "All acceptance criteria were met.")]
        = some "All acceptance criteria were met." ∧
    ("[BK_CONCLUSION]", "conclusion") ∈ placeholderMapping ∧
    dictFind? "BK_CONCLUSION"
        (extractContentSections trivialHelpers
          [("conclusion", "All acceptance criteria were met.")]) = none ∧
    createWordDocumentFromTemplate trivialHelpers (fun t _ => t) "intro"
        [("conclusion", "All acceptance criteria were met.")]
        ["Report body with no placeholders."]
      = (["Report body with no placeholders."], [], []) := by
  exact ⟨rfl, by decide, rfl, rfl⟩

/-- C8 (amended): the missing-placeholder fallback
(`report_generator.py:1870-1889`) appends the note and content for a known
placeholder absent from the body only when `content_mapping` holds a
non-empty value under the bracket-less placeholder name: under that
condition the three paragraphs (blank line, note naming the placeholder,
content) appear contiguously among the appended paragraphs.  Because the
`extract_content_sections` chain has no branch for `[BK_CONCLUSION]` or
`[BK_ATTACHMENTS]`, `content_mapping` never holds a value under those two
names (conjuncts two and three), so their generated section content is
silently dropped rather than appended. -/
theorem c8_missing_placeholder_append (h : ExtractHelpers)
    (imageEffect : String → String → String) (introContent : String)
    (sections : List (String × String)) (templateParas : List String)
    (p sk : String) (hmem : (p, sk) ∈ placeholderMapping)
    (hnotfound : p ∉ (createWordDocumentFromTemplate h imageEffect introContent
        sections templateParas).2.1) :
    (dictGetD (cleanPlaceholderName p)
        (dictInsert "intro" introContent (extractContentSections h sections)) "" ≠ "" →
      ["", missingNoteFor p,
        dictGetD (cleanPlaceholderName p)
          (dictInsert "intro" introContent (extractContentSections h sections)) ""]
        <:+: (createWordDocumentFromTemplate h imageEffect introContent
            sections templateParas).2.2) ∧
    dictFind? "BK_CONCLUSION" (extractContentSections h sections) = none ∧
    dictFind? "BK_ATTACHMENTS" (extractContentSections h sections) = none := by
  refine ⟨?_, ?_, ?_⟩
  · intro hrc
    have hfound : p ∉ (docBodyRun imageEffect sections
        (dictInsert "intro" introContent (extractContentSections h sections))
        templateParas).2 := hnotfound
    have happ : (createWordDocumentFromTemplate h imageEffect introContent
          sections templateParas).2.2
        = missingAppendBlocks
            (dictInsert "intro" introContent (extractContentSections h sections))
            (docBodyRun imageEffect sections
              (dictInsert "intro" introContent (extractContentSections h sections))
              templateParas).2 := rfl
    rw [happ]
    unfold missingAppendBlocks
    rw [missingAppend_fold, List.nil_append]
    apply List.infix_of_mem_flatten
    apply List.mem_filterMap.mpr
    exact ⟨(p, sk), hmem, by rw [if_pos ⟨hfound, hrc⟩]⟩
  · exact extractContentSections_find_other h sections "BK_CONCLUSION" (by decide)
  · exact extractContentSections_find_other h sections "BK_ATTACHMENTS" (by decide)

/-- Witness for C8: with a generated protocol-deviations section and an
empty template body, the three fallback paragraphs for
`[BK_PROTOCOL_DEVIATIONS]` are appended, and no `content_mapping` entry
exists for `BK_CONCLUSION`. -/
theorem c8_witness :
    ["", missingNoteFor "[BK_PROTOCOL_DEVIATIONS]", "No deviations."]
      <:+: (createWordDocumentFromTemplate trivialHelpers (fun t _ => t) "i"
        [("protocol_deviations", "No deviations.")] []).2.2 ∧
    dictFind? "BK_CONCLUSION"
        (extractContentSections trivialHelpers
          [("protocol_deviations", "No deviations.")]) = none := by
  have h := c8_missing_placeholder_append trivialHelpers (fun t _ => t) "i"
      [("protocol_deviations", "No deviations.")] []
      "[BK_PROTOCOL_DEVIATIONS]" "protocol_deviations" (by decide) (by decide)
  have h1 := h.1 (by decide)
  have he : dictGetD (cleanPlaceholderName "[BK_PROTOCOL_DEVIATIONS]")
      (dictInsert "intro" "i" (extractContentSections trivialHelpers
        [("protocol_deviations", "No deviations.")])) "" = "No deviations." := rfl
  rw [he] at h1
  exact ⟨h1, h.2.1⟩

end DVT
